import Mathlib

/-!
Verification development for the sales-chatbot retrieval-and-conversation
engine. Definitions are shallow embeddings of the TypeScript sources:
the conversation engine (phase/emotion classifier, human-handoff check,
system-prompt builder, chat / chatStream orchestrators), the chat API
route handler, and the default retrieval weights. The knowledge /
methodology retrieval module (`retrieval.ts`) is not present in the
source snapshot, so those functions are modelled from the specification
(each such definition says so in its doc comment).

Numbers: scores are embedded as rationals (ℚ); JavaScript strings as
Lean `String` over `List Char`.
-/

/-- Lowercasing as JavaScript `toLowerCase` acts on the characters used by
this code base: ASCII A–Z and the Latin-1 uppercase block À–Þ (except ×)
map down by 32; every other character is unchanged. -/
def jsLowerChar (c : Char) : Char :=
  if 65 ≤ c.toNat ∧ c.toNat ≤ 90 then Char.ofNat (c.toNat + 32)
  else if 192 ≤ c.toNat ∧ c.toNat ≤ 222 ∧ c.toNat ≠ 215 then Char.ofNat (c.toNat + 32)
  else c

/-- String lowercasing, modelling `message.toLowerCase()`. -/
def jsToLower (s : String) : String :=
  ⟨s.data.map jsLowerChar⟩

/-- Whether the first list is a prefix of the second (character lists). -/
def startsWithChars : List Char → List Char → Bool
  | [], _ => true
  | _ :: _, [] => false
  | a :: as, b :: bs => a == b && startsWithChars as bs

/-- Whether `needle` occurs as a contiguous substring of `hay`,
modelling JavaScript `String.prototype.includes`. -/
def containsChars (hay needle : List Char) : Bool :=
  match hay with
  | [] => needle.isEmpty
  | _ :: t => startsWithChars needle hay || containsChars t needle

/-- Substring test on strings: `includesStr hay needle` models
`hay.includes(needle)`. -/
def includesStr (hay needle : String) : Bool :=
  containsChars hay.data needle.data

/-- Whitespace as JavaScript `trim` / `\s` sees it for the characters in
this code base. -/
def jsIsWS (c : Char) : Bool :=
  c == ' ' || c == '\t' || c == '\n' || c == '\r'

/-- Trimming on character lists: drop leading and trailing whitespace. -/
def trimChars (l : List Char) : List Char :=
  ((l.dropWhile jsIsWS).reverse.dropWhile jsIsWS).reverse

/-- String trimming, modelling `s.trim()`. -/
def jsTrim (s : String) : String :=
  ⟨trimChars s.data⟩

/-- The six sales phases of the funnel. -/
inductive SalesPhase
  | greeting
  | qualification
  | presentation
  | negotiation
  | closing
  | post_sale
  deriving DecidableEq, Repr, Fintype

/-- The seven detected customer emotions plus neutral. -/
inductive Emotion
  | neutral
  | excitement
  | concern
  | skepticism
  | confusion
  | urgency
  | hesitation
  | frustration
  deriving DecidableEq, Repr, Fintype

/-- Phase indicator phrases, transcribed from `PHASE_INDICATORS` of the
conversation engine (English, formal Portuguese, colloquial Portuguese). -/
def PHASE_INDICATORS : SalesPhase → List String
  | .greeting =>
      ["hello", "hi", "hey", "good morning", "good afternoon", "good evening",
       "howdy", "what's up", "sup", "yo",
       "olá", "bom dia", "boa tarde", "boa noite", "tudo bem", "como vai",
       "oi", "eai", "e aí", "fala", "salve", "opa", "beleza", "fala aí",
       "iae", "eae", "coé", "qual é"]
  | .qualification =>
      ["need", "looking for", "want", "interested in", "searching for",
       "trying to find", "wish", "require", "hoping for", "do you have",
       "is there", "what options", "which options",
       "preciso", "procuro", "busco", "gostaria", "necessito", "interesse",
       "interessado", "interessada", "opções", "vocês tem", "vocês têm",
       "você tem", "tens",
       "quero", "querendo", "to procurando", "tô procurando", "to buscando",
       "tô buscando", "me interessa", "queria saber", "queria ver",
       "tem como", "dá pra", "rola", "tem aí", "cê tem"]
  | .presentation =>
      ["tell me more", "how does it work", "how do you", "how does",
       "features", "benefits", "explain", "show me", "what is", "what are",
       "describe", "details", "more info", "more about", "learn more",
       "como funciona", "quais são", "o que é", "o que são", "detalhes",
       "mais informações", "pode explicar", "poderia explicar", "me explique",
       "me conta", "conta mais", "fala mais", "explica aí", "me fala",
       "como é que", "como que", "qual a diferença", "e como", "tipo como",
       "como assim"]
  | .negotiation =>
      ["price", "cost", "discount", "expensive", "afford", "cheap", "cheaper",
       "budget", "payment", "installment", "how much", "worth", "value",
       "deal", "terms", "conditions", "monthly", "down payment", "finance",
       "preço", "custo", "desconto", "caro", "barato", "valor", "parcela",
       "parcelas", "entrada", "condições", "pagamento", "financiamento",
       "à vista", "a vista", "parcelado", "investimento", "orçamento",
       "quanto fica", "quanto custa", "quanto é", "quanto sai", "fica quanto",
       "sai quanto", "tá quanto", "ta quanto", "qual o valor", "qual valor",
       "quanto tá", "quanto ta", "pesa quanto", "sai por quanto",
       "fica por quanto", "mais barato", "mais em conta", "tem desconto",
       "faz desconto", "menor preço", "melhor preço", "negocia", "negociar",
       "dá pra baixar", "baixa o preço", "valor mínimo", "mais acessível"]
  | .closing =>
      ["ready", "buy", "purchase", "sign up", "start", "proceed",
       "let's do it", "i'll take", "take it", "deal", "where do i sign",
       "let's close", "i want it", "going for it", "sign me up",
       "get started", "move forward",
       "quero fechar", "vamos fazer", "quero contratar", "quero comprar",
       "gostaria de adquirir", "gostaria de fechar", "vou contratar",
       "vou adquirir", "vamos fechar",
       "pode fechar", "fecha", "vou levar", "quero esse", "quero essa",
       "pode ser esse", "pode ser essa", "como faço para adquirir",
       "como adquirir", "como comprar", "como contratar", "adquirir",
       "comprar", "contratar", "fechar negócio", "bora", "bora fechar",
       "vamo nessa", "to dentro", "tô dentro", "quero sim", "vou querer",
       "me manda", "manda ver", "partiu", "vamo", "vamos lá", "fecha aí",
       "pode mandar", "manda o contrato", "manda proposta", "onde assino",
       "como assino"]
  | .post_sale =>
      ["support", "help with my", "problem with", "issue with",
       "question about my", "already bought", "my order", "my purchase",
       "warranty", "return", "refund", "complaint", "not working", "broken",
       "suporte", "ajuda com", "problema com", "dúvida sobre", "já comprei",
       "meu pedido", "minha compra", "garantia", "devolução", "reclamação",
       "assistência",
       "meu consórcio", "minha carta", "meu contrato", "minha parcela",
       "não tá funcionando", "não ta funcionando", "deu ruim", "deu problema",
       "tive um problema", "to com problema", "tô com problema",
       "preciso de ajuda com", "já sou cliente", "já contratei", "já fechei"]

/-- The fixed reverse-funnel scan order of `detectPhase`: later phases are
checked before earlier ones. -/
def PHASE_PRIORITY : List SalesPhase :=
  [.post_sale, .closing, .negotiation, .presentation, .qualification, .greeting]

/-- Whether some indicator of `phase` occurs in the (already lower-cased)
message. -/
def phaseHasIndicator (messageLower : String) (phase : SalesPhase) : Bool :=
  (PHASE_INDICATORS phase).any fun indicator => includesStr messageLower indicator

/-- Phase detection: scan the phases in `PHASE_PRIORITY` order and return the
first whose indicator list has a substring match in the lower-cased message;
if none match, stay in the current phase. -/
def detectPhase (message : String) (currentPhase : SalesPhase) : SalesPhase :=
  let messageLower := jsToLower message
  match PHASE_PRIORITY.find? (phaseHasIndicator messageLower) with
  | some phase => phase
  | none => currentPhase

/-- Emotion indicator phrases, transcribed from `EMOTION_INDICATORS` of the
conversation engine; `neutral` has no indicators. -/
def EMOTION_INDICATORS : Emotion → List String
  | .neutral => []
  | .excitement =>
      ["excited", "great", "amazing", "love", "perfect", "awesome",
       "fantastic", "wonderful", "excellent", "brilliant", "incredible",
       "can't wait", "thrilled", "!", "!!",
       "animado", "animada", "ótimo", "ótima", "excelente", "maravilhoso",
       "maravilhosa", "perfeito", "perfeita", "incrível", "fantástico",
       "fantástica",
       "adorei", "amei", "massa", "top", "show", "demais", "sensacional",
       "maneiro", "maneira", "irado", "irada", "animal", "da hora",
       "muito bom", "muito boa", "que legal", "legal demais", "bom demais",
       "nossa", "uau", "caramba"]
  | .concern =>
      ["worried", "concern", "concerned", "afraid", "risk", "risky", "safe",
       "safety", "secure", "trust", "reliable", "guarantee", "what if",
       "but what about", "is it safe",
       "preocupado", "preocupada", "preocupação", "medo", "receio", "risco",
       "arriscado", "seguro", "segura", "segurança", "confiança", "confiável",
       "garantia",
       "e se", "mas e se", "será que", "será mesmo", "tenho medo",
       "fico com medo", "não sei se confio", "dá pra confiar",
       "é seguro mesmo", "não vai dar ruim", "vai dar certo"]
  | .skepticism =>
      ["really", "are you sure", "doubt", "doubtful", "prove", "proof",
       "true", "truly", "seriously", "hard to believe", "sounds too good",
       "catch", "what's the catch", "honestly", "for real",
       "certeza", "tem certeza", "dúvida", "duvido", "verdade", "é verdade",
       "sério", "sério mesmo", "provar", "prova", "difícil acreditar",
       "é mesmo", "sério isso", "jura", "tá zuando", "tá de brincadeira",
       "sei não", "aham", "conta outra", "parece bom demais",
       "qual é a pegadinha", "tem pegadinha", "hum", "hmm", "será",
       "tô desconfiado", "tô desconfiada", "não tô acreditando"]
  | .confusion =>
      ["understand", "don't understand", "confused", "confusing", "unclear",
       "don't get", "don't get it", "what do you mean", "explain again",
       "lost", "i'm lost", "huh", "what", "sorry what", "come again",
       "entender", "não entendi", "não entendo", "confuso", "confusa",
       "explicar", "pode explicar", "não ficou claro", "não está claro",
       "como assim", "oi", "hã", "quê", "não peguei", "não saquei", "boia",
       "tô boiando", "tá boiando", "me perdi", "perdi", "não tô entendendo",
       "fala de novo", "repete", "pode repetir", "explica melhor",
       "não captei"]
  | .urgency =>
      ["now", "right now", "today", "urgent", "urgently", "asap", "quickly",
       "hurry", "fast", "immediately", "soon", "need it now", "can't wait",
       "time sensitive", "deadline",
       "agora", "hoje", "urgente", "urgência", "rápido", "rapidamente",
       "imediatamente", "logo", "o quanto antes", "prazo",
       "já", "agora já", "pra ontem", "preciso pra ontem",
       "não pode esperar", "sem tempo", "correndo", "voando", "rapidão",
       "na hora", "to com pressa", "tô com pressa", "urgentíssimo",
       "super urgente"]
  | .hesitation =>
      ["maybe", "perhaps", "think about", "think about it", "not sure",
       "later", "let me think", "need to think", "considering", "possibly",
       "might", "could be", "on the fence", "undecided", "sleep on it",
       "talvez", "quem sabe", "pensar", "vou pensar", "preciso pensar",
       "não sei", "depois", "mais tarde", "considerar", "vou considerar",
       "indeciso", "indecisa",
       "sei lá", "não sei não", "deixa eu ver", "vou ver",
       "vou dar uma pensada", "deixa eu pensar", "hmm", "é", "pois é",
       "depende", "pode ser", "quem sabe depois", "outro dia",
       "uma hora dessas", "vou analisar", "preciso analisar", "consultar",
       "preciso consultar"]
  | .frustration =>
      ["frustrated", "frustrating", "annoyed", "annoying", "angry",
       "terrible", "worst", "horrible", "awful", "unacceptable",
       "ridiculous", "absurd", "waste of time", "useless", "fed up",
       "frustrado", "frustrada", "frustração", "irritado", "irritada",
       "raiva", "péssimo", "péssima", "terrível", "horrível", "inaceitável",
       "absurdo", "absurda", "ridículo", "ridícula",
       "que saco", "saco cheio", "de saco cheio", "puto", "puta",
       "p* da vida", "não aguento", "não aguento mais", "tô de saco cheio",
       "que droga", "que m*", "perda de tempo", "enrolação", "enrolando",
       "palhaçada", "brincadeira", "sem condição", "sem noção", "absurdo isso"]

/-- The iteration order of `detectEmotion` over `EMOTION_INDICATORS`
(object-literal insertion order, `neutral` skipped inside the loop). -/
def EMOTION_SCAN_ORDER : List Emotion :=
  [.excitement, .concern, .skepticism, .confusion, .urgency, .hesitation,
   .frustration]

/-- Whether some indicator of `emotion` occurs in the lower-cased message. -/
def emotionHasIndicator (messageLower : String) (emotion : Emotion) : Bool :=
  (EMOTION_INDICATORS emotion).any fun indicator => includesStr messageLower indicator

/-- Emotion detection: the first emotion in scan order with a substring
match in the lower-cased message, defaulting to neutral. -/
def detectEmotion (message : String) : Emotion :=
  let messageLower := jsToLower message
  match EMOTION_SCAN_ORDER.find? (emotionHasIndicator messageLower) with
  | some emotion => emotion
  | none => .neutral

/-- The ten context types of a knowledge capsule. -/
inductive ContextType
  | product_info
  | pricing
  | objection_handling
  | competitor_comparison
  | trust_building
  | process_explanation
  | legal_terms
  | faq
  | closing_technique
  | follow_up
  deriving DecidableEq, Repr

/-- Temporal relevance classes of a knowledge capsule. -/
inductive TemporalRelevance
  | persistent
  | seasonal
  | conditional
  | archived
  deriving DecidableEq, Repr

/-- The eight methodology types. -/
inductive MethodologyType
  | phase_definition
  | transition_trigger
  | objection_response
  | closing_technique
  | qualification_question
  | value_proposition
  | urgency_creator
  | trust_builder
  deriving DecidableEq, Repr

/-- A knowledge capsule (KnowledgeCapsuleSchema plus its record id and
content body), with scores as rationals and the embedding as a rational
vector. -/
structure Capsule where
  id : String
  content : String
  sourceDocument : String
  triggerPhrases : List String
  questionTypes : List String
  semanticTags : List String
  contextType : ContextType
  salesPhase : List SalesPhase
  emotionalResonance : Emotion
  temporalRelevance : TemporalRelevance
  importanceWeight : ℚ
  confidenceScore : ℚ
  actionRequired : Bool
  objectionPattern : Bool
  antiTriggers : List String
  embedding : List ℚ
  deriving DecidableEq, Repr

/-- A methodology record (MethodologySchema plus id and content body). -/
structure Methodology where
  id : String
  content : String
  methodologyType : MethodologyType
  salesPhase : List SalesPhase
  priority : ℕ
  triggerPhrases : List String
  applicableEmotions : List Emotion
  title : String
  summary : String
  embedding : List ℚ
  deriving DecidableEq, Repr

/-- The twelve retrieval tunables: four relevance-stage weights, six
value-stage weights and the two thresholds. -/
structure RetrievalWeights where
  triggerPhrases : ℚ
  vectorSimilarity : ℚ
  semanticTags : ℚ
  questionTypes : ℚ
  importanceWeight : ℚ
  temporalRelevance : ℚ
  contextAlignment : ℚ
  confidenceScore : ℚ
  emotionalResonance : ℚ
  objectionPattern : ℚ
  relevanceGatekeeper : ℚ
  minimumFinalScore : ℚ
  deriving DecidableEq, Repr

/-- The documented default retrieval weights (`defaultRetrievalWeights` in
`types.ts`); the source's decimal literals are embedded as explicit
fractions because the library's decimal-literal rationals are not
kernel-reducible. -/
def defaultRetrievalWeights : RetrievalWeights where
  triggerPhrases := mkRat 15 100
  vectorSimilarity := mkRat 15 100
  semanticTags := mkRat 5 100
  questionTypes := mkRat 5 100
  importanceWeight := mkRat 20 100
  temporalRelevance := mkRat 10 100
  contextAlignment := mkRat 10 100
  confidenceScore := mkRat 5 100
  emotionalResonance := mkRat 10 100
  objectionPattern := mkRat 5 100
  relevanceGatekeeper := mkRat 5 100
  minimumFinalScore := mkRat 30 100

/-- The retrieval weights written into a fresh chatbot's config by the
dashboard create action. -/
def createActionRetrievalWeights : RetrievalWeights where
  triggerPhrases := mkRat 15 100
  vectorSimilarity := mkRat 15 100
  semanticTags := mkRat 5 100
  questionTypes := mkRat 5 100
  importanceWeight := mkRat 2 10
  temporalRelevance := mkRat 1 10
  contextAlignment := mkRat 1 10
  confidenceScore := mkRat 5 100
  emotionalResonance := mkRat 1 10
  objectionPattern := mkRat 5 100
  relevanceGatekeeper := mkRat 5 100
  minimumFinalScore := mkRat 3 10

/-- Per-chatbot configuration (ChatbotConfig in `types.ts`). -/
structure ChatbotConfig where
  retrievalWeights : RetrievalWeights
  maxCapsulesPerQuery : ℕ
  enableContextEnrichment : Bool
  maxConversationTurns : ℕ
  humanHandoffEnabled : Bool
  humanHandoffTriggers : List String
  systemPromptAdditions : Option String
  temperature : ℚ
  maxTokensPerResponse : ℕ
  deriving DecidableEq, Repr

/-- The default chatbot configuration (`defaultChatbotConfig` in
`types.ts`; `systemPromptAdditions` is left unset there). -/
def defaultChatbotConfig : ChatbotConfig where
  retrievalWeights := defaultRetrievalWeights
  maxCapsulesPerQuery := 5
  enableContextEnrichment := true
  maxConversationTurns := 50
  humanHandoffEnabled := true
  humanHandoffTriggers := ["talk to human", "real person", "speak to someone"]
  systemPromptAdditions := none
  temperature := mkRat 7 10
  maxTokensPerResponse := 500

/-- The chatbot row fields the conversation engine reads (name, product and
persona fields; nullable columns are options). -/
structure Chatbot where
  id : String
  name : String
  productName : String
  productType : String
  industry : Option String
  welcomeMessage : Option String
  personality : Option String
  deriving DecidableEq, Repr

/-- Message roles of the in-memory history. -/
inductive Role
  | user
  | assistant
  deriving DecidableEq, Repr

/-- One message of the in-memory conversation history. -/
structure ChatMessage where
  role : Role
  content : String
  deriving DecidableEq, Repr

/-- The AI provider selector of a provider config. -/
inductive AIProvider
  | anthropic
  | openai
  deriving DecidableEq, Repr

/-- Provider configuration carried in the conversation context. -/
structure ProviderConfig where
  provider : AIProvider
  model : String
  apiKey : String
  deriving DecidableEq, Repr

/-- The per-conversation context threaded through `chat` / `chatStream`. -/
structure ConversationContext where
  conversationId : String
  chatbot : Chatbot
  config : ChatbotConfig
  currentPhase : SalesPhase
  detectedEmotion : Emotion
  messageHistory : List ChatMessage
  providerConfig : ProviderConfig
  deriving DecidableEq, Repr

/-- Kernel-reducible rational addition: the library's `Rat.add` is
`@[irreducible]`, so scoring arithmetic goes through `mkRat`; `qAdd_eq`
proves agreement with `+`. -/
def qAdd (a b : ℚ) : ℚ :=
  mkRat (a.num * b.den + b.num * a.den) (a.den * b.den)

/-- Kernel-reducible rational multiplication; agrees with `*`. -/
def qMul (a b : ℚ) : ℚ :=
  mkRat (a.num * b.num) (a.den * b.den)

/-- Kernel-reducible cast of a natural number into ℚ. -/
def qOfNat (n : ℕ) : ℚ :=
  mkRat n 1

/-- Kernel-reducible division of a rational by a natural number; agrees
with `/` (division by zero yields zero on both sides). -/
def qDivNat (a : ℚ) (n : ℕ) : ℚ :=
  mkRat a.num (a.den * n)

/-- Kernel-reducible rational inverse; agrees with `⁻¹`. -/
def qInv (b : ℚ) : ℚ :=
  mkRat ((b.den : ℤ) * Int.sign b.num) b.num.natAbs

/-- Kernel-reducible rational division; agrees with `/`. -/
def qDiv (a b : ℚ) : ℚ :=
  qMul a (qInv b)

/-- Kernel-reducible rational subtraction; agrees with `-`. -/
def qSub (a b : ℚ) : ℚ :=
  qAdd a (mkRat (-b.num) b.den)

/-- Kernel-reducible sum of a list of rationals; agrees with `List.sum`. -/
def qSum (l : List ℚ) : ℚ :=
  l.foldr qAdd 0

/-- Word characters for tokenization: ASCII letters and digits plus all
non-ASCII letters (accented Portuguese characters). -/
def isWordChar (c : Char) : Bool :=
  c.isAlphanum || c.toNat ≥ 128

/-- Split a character list into maximal runs of word characters. -/
def wordsOfChars : List Char → List Char → List String
  | [], cur => if cur.isEmpty then [] else [⟨cur.reverse⟩]
  | c :: rest, cur =>
      if isWordChar c then wordsOfChars rest (c :: cur)
      else if cur.isEmpty then wordsOfChars rest []
      else ⟨cur.reverse⟩ :: wordsOfChars rest []

/-- Split a string into words on non-word characters. -/
def splitWords (s : String) : List String :=
  wordsOfChars s.data []

/-- Modelled from the spec: `retrieval.ts` is absent from the source
snapshot, and the spec only says the lexical matcher is stop-word filtered
and bilingual (English and Portuguese) without fixing the list; this is a
small bilingual stop-word list standing in for it. -/
def STOP_WORDS : List String :=
  ["the", "and", "for", "with", "that", "this", "you", "your", "are",
   "was", "have", "has", "how", "what", "when", "where", "why", "who",
   "can", "will", "about",
   "que", "com", "para", "por", "uma", "das", "dos", "nas", "nos",
   "não", "sim", "mais", "como", "sobre", "ele", "ela", "isso", "isto"]

/-- Modelled from the spec: tokenization of free text into a normalized
keyword list — lower-case, split on non-word characters, drop stop words
and words of at most two characters (the cut the engine's own
`findMatchedTriggers` debug helper also uses). -/
def tokenizeKeywords (text : String) : List String :=
  (splitWords (jsToLower text)).filter fun w =>
    w.length > 2 && !(STOP_WORDS.contains w)

/-- Modelled from the spec: the credit one keyword of a trigger phrase
earns against the query's keyword list — 1 for an exact match, 0.5 for a
singular/plural-suffix-tolerant partial match (one word a prefix of the
other), 0 otherwise. -/
def keywordMatchValue (queryKeywords : List String) (kw : String) : ℚ :=
  if queryKeywords.contains kw then 1
  else if queryKeywords.any fun qk =>
      startsWithChars kw.data qk.data || startsWithChars qk.data kw.data then mkRat 1 2
  else 0

/-- Modelled from the spec: the fraction of one trigger phrase's keywords
found in the query's keyword list (0 when the phrase has no keywords). -/
def phraseMatchFraction (queryKeywords : List String) (phrase : String) : ℚ :=
  let pks := tokenizeKeywords phrase
  if pks.isEmpty then 0
  else qDivNat (qSum (pks.map (keywordMatchValue queryKeywords))) pks.length

/-- Modelled from the spec: the trigger sub-score — the maximum phrase
match fraction across all trigger phrases, not the average. -/
def triggerScoreOf (queryKeywords : List String) (triggerPhrases : List String) : ℚ :=
  (triggerPhrases.map (phraseMatchFraction queryKeywords)).foldl max 0

/-- Modelled from the spec: the vector sub-score — 0 if either embedding
is empty or the lengths differ, otherwise the supplied similarity
function (cosine similarity is a real-valued operation, so the similarity
itself is abstracted as the parameter `vectorSim`). -/
def vectorScoreOf (vectorSim : List ℚ → List ℚ → ℚ) (a b : List ℚ) : ℚ :=
  if a.isEmpty || b.isEmpty || a.length != b.length then 0 else vectorSim a b

/-- Modelled from the spec: the tag sub-score — the fraction of semantic
tags found in (or containing) a query keyword, exact match 1, containment
match 0.5, capped at 1. -/
def tagScoreOf (queryKeywords : List String) (semanticTags : List String) : ℚ :=
  let tags := semanticTags.map jsToLower
  if tags.isEmpty then 0
  else
    let contribution := fun (tag : String) =>
      if queryKeywords.contains tag then (1 : ℚ)
      else if queryKeywords.any fun qk => includesStr tag qk || includesStr qk tag then mkRat 1 2
      else 0
    min (qDivNat (qSum (tags.map contribution)) tags.length) 1

/-- Modelled from the spec: the question sub-score — the fraction of the
record's question-type strings occurring literally in the lower-cased
query text. -/
def questionScoreOf (messageLower : String) (questionTypes : List String) : ℚ :=
  if questionTypes.isEmpty then 0
  else qDivNat
    (qOfNat (questionTypes.filter fun q => includesStr messageLower (jsToLower q)).length)
    questionTypes.length

/-- The ten per-dimension sub-scores a scored capsule carries for
observability (the `matchDetails` of the debug payload). -/
structure MatchDetails where
  triggerScore : ℚ
  vectorScore : ℚ
  tagScore : ℚ
  questionScore : ℚ
  importanceScore : ℚ
  temporalScore : ℚ
  contextScore : ℚ
  confidenceScore : ℚ
  emotionScore : ℚ
  objectionScore : ℚ
  deriving DecidableEq, Repr

/-- Modelled from the spec: Stage-1 relevance — the weighted sum of the
four relevance sub-scores. -/
def relevanceScoreOf (w : RetrievalWeights) (d : MatchDetails) : ℚ :=
  qAdd (qAdd (qAdd (qMul w.triggerPhrases d.triggerScore)
    (qMul w.vectorSimilarity d.vectorScore))
    (qMul w.semanticTags d.tagScore)) (qMul w.questionTypes d.questionScore)

/-- Modelled from the spec: Stage-2 value — the weighted sum of the six
value sub-scores. -/
def valueScoreOf (w : RetrievalWeights) (d : MatchDetails) : ℚ :=
  qAdd (qAdd (qAdd (qAdd (qAdd (qMul w.importanceWeight d.importanceScore)
    (qMul w.temporalRelevance d.temporalScore))
    (qMul w.contextAlignment d.contextScore))
    (qMul w.confidenceScore d.confidenceScore))
    (qMul w.emotionalResonance d.emotionScore))
    (qMul w.objectionPattern d.objectionScore)

/-- Modelled from the spec: the fixed temporal-relevance mapping. -/
def temporalScoreOf : TemporalRelevance → ℚ
  | .persistent => mkRat 8 10
  | .seasonal => mkRat 6 10
  | .conditional => mkRat 4 10
  | .archived => mkRat 1 10

/-- Modelled from the spec: the per-context-type keyword lists of the
context sub-score; the spec does not enumerate them, so these are short
representative bilingual lists. -/
def CONTEXT_TYPE_KEYWORDS : ContextType → List String
  | .product_info => ["product", "service", "produto", "serviço"]
  | .pricing => ["price", "cost", "payment", "preço", "valor", "pagamento"]
  | .objection_handling => ["but", "however", "concern", "mas", "porém"]
  | .competitor_comparison => ["competitor", "compare", "concorrente", "comparar"]
  | .trust_building => ["trust", "guarantee", "confiança", "garantia"]
  | .process_explanation => ["process", "step", "processo", "etapa"]
  | .legal_terms => ["contract", "terms", "contrato", "termos"]
  | .faq => ["question", "pergunta", "dúvida"]
  | .closing_technique => ["close", "sign", "fechar", "assinar"]
  | .follow_up => ["follow", "suporte", "acompanhamento"]

/-- Modelled from the spec: the keyword-density half of the context
sub-score — matches divided by max(keyword-count × 0.3, 1), capped at 1. -/
def contextKeywordScore (queryKeywords : List String) (ct : ContextType) : ℚ :=
  let kws := CONTEXT_TYPE_KEYWORDS ct
  let matchCount := (kws.filter fun k => queryKeywords.contains k).length
  min (qDiv (qOfNat matchCount) (max (qMul (qOfNat kws.length) (mkRat 3 10)) 1)) 1

/-- Position of a phase in the canonical funnel order. -/
def phaseIdx : SalesPhase → ℕ
  | .greeting => 0
  | .qualification => 1
  | .presentation => 2
  | .negotiation => 3
  | .closing => 4
  | .post_sale => 5

/-- Modelled from the spec: the phase-alignment half of the context
sub-score — 1.0 on a direct phase match, 0.6 / 0.3 one or two steps away
in the canonical funnel order, 0.1 otherwise, 0.5 when the query carries
no phase. -/
def phaseAlignScore (queryPhase : Option SalesPhase) (phases : List SalesPhase) : ℚ :=
  match queryPhase with
  | none => mkRat 1 2
  | some p =>
      if phases.contains p then 1
      else
        let dist := (phases.map fun q =>
          Int.natAbs ((phaseIdx p : ℤ) - (phaseIdx q : ℤ))).foldl min 100
        if dist = 1 then mkRat 6 10 else if dist = 2 then mkRat 3 10 else mkRat 1 10

/-- Modelled from the spec: the context sub-score — the 50/50 average of
the keyword-density half and the phase-alignment half. -/
def contextScoreOf (queryKeywords : List String) (queryPhase : Option SalesPhase)
    (ct : ContextType) (phases : List SalesPhase) : ℚ :=
  qDivNat (qAdd (contextKeywordScore queryKeywords ct) (phaseAlignScore queryPhase phases)) 2

/-- Modelled from the spec: the scorer's own per-emotion keyword lists
(independent of the classifier's `EMOTION_INDICATORS`; the spec does not
enumerate them, so these are short representative lists). -/
def EMOTION_SCORING_KEYWORDS : Emotion → List String
  | .neutral => []
  | .excitement => ["excited", "great", "amazing", "animado", "ótimo"]
  | .concern => ["worried", "afraid", "risk", "preocupado", "medo"]
  | .skepticism => ["doubt", "prove", "really", "dúvida", "provar"]
  | .confusion => ["confused", "understand", "confuso", "entender"]
  | .urgency => ["urgent", "now", "today", "urgente", "agora"]
  | .hesitation => ["maybe", "think", "later", "talvez", "pensar"]
  | .frustration => ["frustrated", "angry", "terrible", "frustrado", "raiva"]

/-- Modelled from the spec: the emotion sub-score — 0.9 when the turn's
already-detected emotion equals the record's label (bypassing the keyword
scan); otherwise min(0.3 + 0.2 × keyword matches, 0.8) when any keyword of
the record's emotion occurs in the query text, 0.3 for a neutral record,
else 0. -/
def emotionScoreOf (detectedEmotion : Option Emotion) (messageLower : String)
    (recordEmotion : Emotion) : ℚ :=
  if detectedEmotion = some recordEmotion then mkRat 9 10
  else
    let matchCount := ((EMOTION_SCORING_KEYWORDS recordEmotion).filter fun k =>
      includesStr messageLower k).length
    if 0 < matchCount then
      min (qAdd (mkRat 3 10) (qMul (mkRat 2 10) (qOfNat matchCount))) (mkRat 8 10)
    else if recordEmotion = .neutral then mkRat 3 10
    else 0

/-- Modelled from the spec: the objection sub-score — 0.8 when the record
is flagged as an objection pattern, 0 otherwise. -/
def objectionScoreOf (objectionPattern : Bool) : ℚ :=
  if objectionPattern then mkRat 8 10 else 0

/-- Modelled from the spec: anti-trigger suppression — the record is
skipped entirely when more than half the keywords of some anti-trigger
phrase appear in the query's keyword list. -/
def antiTriggerSuppressed (queryKeywords : List String) (antiTriggers : List String) : Bool :=
  antiTriggers.any fun phrase =>
    let pks := tokenizeKeywords phrase
    let found := (pks.filter fun k => queryKeywords.contains k).length
    decide (pks.length < 2 * found)

/-- A conversational retrieval query: message text, its embedding and the
already-classified phase and emotion. -/
structure RetrievalQuery where
  message : String
  messageEmbedding : List ℚ
  currentPhase : Option SalesPhase
  detectedEmotion : Option Emotion
  deriving DecidableEq, Repr

/-- A capsule together with its retrieval scores. -/
structure ScoredCapsule where
  capsule : Capsule
  relevanceScore : ℚ
  valueScore : ℚ
  finalScore : ℚ
  matchDetails : MatchDetails
  deriving DecidableEq, Repr

/-- Modelled from the spec: the ten per-dimension sub-scores of one
capsule against one query. -/
def capsuleMatchDetails (vectorSim : List ℚ → List ℚ → ℚ) (query : RetrievalQuery)
    (c : Capsule) : MatchDetails :=
  let messageLower := jsToLower query.message
  let queryKeywords := tokenizeKeywords query.message
  { triggerScore := triggerScoreOf queryKeywords c.triggerPhrases
    vectorScore := vectorScoreOf vectorSim query.messageEmbedding c.embedding
    tagScore := tagScoreOf queryKeywords c.semanticTags
    questionScore := questionScoreOf messageLower c.questionTypes
    importanceScore := c.importanceWeight
    temporalScore := temporalScoreOf c.temporalRelevance
    contextScore := contextScoreOf queryKeywords query.currentPhase c.contextType c.salesPhase
    confidenceScore := c.confidenceScore
    emotionScore := emotionScoreOf query.detectedEmotion messageLower c.emotionalResonance
    objectionScore := objectionScoreOf c.objectionPattern }

/-- Modelled from the spec: the two-stage scoring of one capsule.
Anti-trigger suppression first; then Stage-1 relevance with the hard
`relevanceGatekeeper` cut; then Stage-2 value, the flat +0.30 boost for
`actionRequired` records applied to the final score after scoring but
before the `minimumFinalScore` gate. Returns `none` when the candidate is
discarded. -/
def scoreCapsule (vectorSim : List ℚ → List ℚ → ℚ) (weights : RetrievalWeights)
    (query : RetrievalQuery) (c : Capsule) : Option ScoredCapsule :=
  let queryKeywords := tokenizeKeywords query.message
  if antiTriggerSuppressed queryKeywords c.antiTriggers then none
  else
    let details := capsuleMatchDetails vectorSim query c
    let relevanceScore := relevanceScoreOf weights details
    if relevanceScore < weights.relevanceGatekeeper then none
    else
      let valueScore := valueScoreOf weights details
      let finalScore := qAdd (qAdd relevanceScore valueScore)
        (if c.actionRequired then mkRat 3 10 else 0)
      if finalScore < weights.minimumFinalScore then none
      else some
        { capsule := c, relevanceScore := relevanceScore, valueScore := valueScore
          finalScore := finalScore, matchDetails := details }

/-- Insert an element into a list kept in descending key order. -/
def insertByDesc {α : Type} (key : α → ℚ) (x : α) : List α → List α
  | [] => [x]
  | y :: ys => if key y < key x then x :: y :: ys else y :: insertByDesc key x ys

/-- Sort a list in descending key order (insertion sort). -/
def sortByDesc {α : Type} (key : α → ℚ) (l : List α) : List α :=
  l.foldr (insertByDesc key) []

/-- Modelled from the spec: the knowledge retrieval pass — score every
candidate, drop the discarded ones, sort the survivors descending by
final score and return the top `maxResults`. -/
def retrieveCapsules (vectorSim : List ℚ → List ℚ → ℚ) (candidates : List Capsule)
    (query : RetrievalQuery) (weights : RetrievalWeights) (maxResults : ℕ) :
    List ScoredCapsule :=
  (sortByDesc (fun sc => sc.finalScore)
    (candidates.filterMap (scoreCapsule vectorSim weights query))).take maxResults

/-- All-zero sub-score details carried by enrichment-sourced additions. -/
def enrichmentDetails : MatchDetails :=
  { triggerScore := 0, vectorScore := 0, tagScore := 0, questionScore := 0
    importanceScore := 0, temporalScore := 0, contextScore := 0
    confidenceScore := 0, emotionScore := 0, objectionScore := 0 }

/-- Modelled from the spec: context enrichment — collect the lower-cased
semantic tags of the already-selected capsules, pick from the remaining
pool the records sharing at least two tags, give them the fixed 0.3
relevance tier plus half their importance weight as value, sort by that
composite and append at most `maxAdditional` of them. -/
def enrichWithRelated (selected : List ScoredCapsule) (allCandidates : List Capsule)
    (maxAdditional : ℕ) : List ScoredCapsule :=
  let selectedIds := selected.map fun sc => sc.capsule.id
  let selectedTags := (selected.flatMap fun sc => sc.capsule.semanticTags).map jsToLower
  let pool := allCandidates.filter fun c => !(selectedIds.contains c.id)
  let related := pool.filter fun c =>
    2 ≤ ((c.semanticTags.map jsToLower).filter fun t => selectedTags.contains t).length
  let enrichScored := related.map fun c =>
    ({ capsule := c, relevanceScore := mkRat 3 10
       valueScore := qMul (mkRat 1 2) c.importanceWeight
       finalScore := qAdd (mkRat 3 10) (qMul (mkRat 1 2) c.importanceWeight)
       matchDetails := enrichmentDetails } : ScoredCapsule)
  selected ++ (sortByDesc (fun sc => sc.finalScore) enrichScored).take maxAdditional

/-- Phase/emotion match flags of a scored methodology. -/
structure MethMatchDetails where
  phaseMatch : Bool
  emotionMatch : Bool
  deriving DecidableEq, Repr

/-- A methodology together with its retrieval scores. -/
structure ScoredMethodology where
  methodology : Methodology
  relevanceScore : ℚ
  phaseScore : ℚ
  emotionScore : ℚ
  triggerScore : ℚ
  vectorScore : ℚ
  priorityScore : ℚ
  finalScore : ℚ
  matchDetails : MethMatchDetails
  deriving DecidableEq, Repr

/-- Modelled from the spec: single-stage methodology scoring — phase
score 1.0 / 0.3, emotion score 1.0 / 0.4 (neutral-tolerant), the shared
trigger-phrase routine and the guarded vector score, combined as
.35/.25/.20/.20, discarded under 0.15, then multiplied by the priority
multiplier 1 − (priority − 1) × 0.1. -/
def scoreMethodology (vectorSim : List ℚ → List ℚ → ℚ) (query : RetrievalQuery)
    (m : Methodology) : Option ScoredMethodology :=
  let queryKeywords := tokenizeKeywords query.message
  let phaseMatch := match query.currentPhase with
    | none => true
    | some p => m.salesPhase.contains p
  let emotionMatch := match query.detectedEmotion with
    | none => true
    | some e => m.applicableEmotions.contains e || m.applicableEmotions.contains .neutral
  let phaseScore : ℚ := if phaseMatch then 1 else mkRat 3 10
  let emotionScore : ℚ := if emotionMatch then 1 else mkRat 4 10
  let triggerScore := triggerScoreOf queryKeywords m.triggerPhrases
  let vectorScore := vectorScoreOf vectorSim query.messageEmbedding m.embedding
  let relevanceScore := qAdd (qAdd (qAdd (qMul (mkRat 35 100) triggerScore)
    (qMul (mkRat 25 100) vectorScore))
    (qMul (mkRat 20 100) phaseScore)) (qMul (mkRat 20 100) emotionScore)
  if relevanceScore < mkRat 15 100 then none
  else
    let priorityScore := qSub 1 (qMul (qSub (qOfNat m.priority) 1) (mkRat 1 10))
    some
      { methodology := m, relevanceScore := relevanceScore, phaseScore := phaseScore
        emotionScore := emotionScore, triggerScore := triggerScore
        vectorScore := vectorScore, priorityScore := priorityScore
        finalScore := qMul relevanceScore priorityScore
        matchDetails := { phaseMatch := phaseMatch, emotionMatch := emotionMatch } }

/-- Modelled from the spec: the methodology retrieval pass — optional
type pre-filter, score, sort descending by final score, top
`maxResults`. -/
def retrieveMethodologies (vectorSim : List ℚ → List ℚ → ℚ)
    (candidates : List Methodology) (query : RetrievalQuery)
    (typeFilter : Option MethodologyType) (maxResults : ℕ) :
    List ScoredMethodology :=
  let pool := match typeFilter with
    | none => candidates
    | some t => candidates.filter fun m => decide (m.methodologyType = t)
  (sortByDesc (fun sm => sm.finalScore)
    (pool.filterMap (scoreMethodology vectorSim query))).take maxResults

/-- Uppercasing counterpart of `jsLowerChar` (ASCII a–z and Latin-1 à–þ
except ÷). -/
def jsUpperChar (c : Char) : Char :=
  if 97 ≤ c.toNat ∧ c.toNat ≤ 122 then Char.ofNat (c.toNat - 32)
  else if 224 ≤ c.toNat ∧ c.toNat ≤ 254 ∧ c.toNat ≠ 247 then Char.ofNat (c.toNat - 32)
  else c

/-- String uppercasing, modelling `s.toUpperCase()`. -/
def jsToUpper (s : String) : String :=
  ⟨s.data.map jsUpperChar⟩

/-- Render a phase the way the TypeScript string union writes it. -/
def phaseToString : SalesPhase → String
  | .greeting => "greeting"
  | .qualification => "qualification"
  | .presentation => "presentation"
  | .negotiation => "negotiation"
  | .closing => "closing"
  | .post_sale => "post_sale"

/-- Render an emotion the way the TypeScript string union writes it. -/
def emotionToString : Emotion → String
  | .neutral => "neutral"
  | .excitement => "excitement"
  | .concern => "concern"
  | .skepticism => "skepticism"
  | .confusion => "confusion"
  | .urgency => "urgency"
  | .hesitation => "hesitation"
  | .frustration => "frustration"

/-- Render a methodology type the way the TypeScript string union writes
it. -/
def methodologyTypeToString : MethodologyType → String
  | .phase_definition => "phase_definition"
  | .transition_trigger => "transition_trigger"
  | .objection_response => "objection_response"
  | .closing_technique => "closing_technique"
  | .qualification_question => "qualification_question"
  | .value_proposition => "value_proposition"
  | .urgency_creator => "urgency_creator"
  | .trust_builder => "trust_builder"

/-- Replace the first underscore by a space, modelling
`s.replace('_', ' ')` (JavaScript `replace` with a string pattern
replaces only the first occurrence). -/
def replaceFirstUnderscore (l : List Char) : List Char :=
  match l with
  | [] => []
  | c :: rest => if c == '_' then ' ' :: rest else c :: replaceFirstUnderscore rest

/-- Split a string on runs of whitespace, modelling `s.split(/\s+/)` up to
the empty leading token (irrelevant here: callers drop short words). -/
def splitOnWS : List Char → List Char → List String
  | [], cur => if cur.isEmpty then [] else [⟨cur.reverse⟩]
  | c :: rest, cur =>
      if jsIsWS c then
        if cur.isEmpty then splitOnWS rest []
        else ⟨cur.reverse⟩ :: splitOnWS rest []
      else splitOnWS rest (c :: cur)

/-- Human-handoff detection: enabled in config and some configured trigger
phrase occurs (case-insensitively) in the message. -/
def shouldOfferHumanHandoff (message : String) (config : ChatbotConfig) : Bool :=
  if !config.humanHandoffEnabled then false
  else
    let messageLower := jsToLower message
    config.humanHandoffTriggers.any fun trigger =>
      includesStr messageLower (jsToLower trigger)

/-- Debug reasoning for the detected phase, as `getPhaseReasoning`
produces it. -/
def getPhaseReasoning (message : String) (detectedPhase previousPhase : SalesPhase) :
    String :=
  let messageLower := jsToLower message
  let matchedIndicators := (PHASE_INDICATORS detectedPhase).filter fun i =>
    includesStr messageLower i
  if 0 < matchedIndicators.length then
    "Detected \"" ++ phaseToString detectedPhase ++ "\" phase based on keywords: \""
      ++ String.intercalate "\", \"" matchedIndicators ++ "\""
  else if detectedPhase = previousPhase then
    "No phase change detected, staying in \"" ++ phaseToString previousPhase ++ "\" phase"
  else
    "Phase set to \"" ++ phaseToString detectedPhase
      ++ "\" (natural progression from \"" ++ phaseToString previousPhase ++ "\")"

/-- Debug reasoning for the detected emotion, as `getEmotionReasoning`
produces it. -/
def getEmotionReasoning (message : String) (detectedEmotion : Emotion) : String :=
  let messageLower := jsToLower message
  let matchedIndicators := (EMOTION_INDICATORS detectedEmotion).filter fun i =>
    includesStr messageLower i
  if 0 < matchedIndicators.length then
    "Detected \"" ++ emotionToString detectedEmotion ++ "\" emotion based on: \""
      ++ String.intercalate "\", \"" matchedIndicators ++ "\""
  else
    "No strong emotional indicators detected, defaulting to \"neutral\""

/-- Trigger phrases whose long words are at least half present among the
long words of the message (`findMatchedTriggers`). -/
def findMatchedTriggers (message : String) (triggerPhrases : List String) :
    List String :=
  let messageWords := (splitOnWS (jsToLower message).data []).filter fun w => 2 < w.length
  triggerPhrases.filter fun phrase =>
    let phraseWords := (splitOnWS (jsToLower phrase).data []).filter fun w => 2 < w.length
    let matchCount := (phraseWords.filter fun w => messageWords.contains w).length
    (phraseWords.length + 1) / 2 ≤ matchCount

/-- Semantic tags occurring (case-insensitively) in the message
(`findMatchedTags`). -/
def findMatchedTags (message : String) (semanticTags : List String) : List String :=
  let messageLower := jsToLower message
  semanticTags.filter fun tag => includesStr messageLower (jsToLower tag)

/-- Percentage rendering of a final score, modelling
`(score * 100).toFixed(0)`. -/
def formatPercent (q : ℚ) : String :=
  toString (round (100 * q))

/-- The injected knowledge block: each selected capsule labelled with its
percentage relevance, joined by blank lines (empty for no capsules). -/
def knowledgeBlock (finalCapsules : List ScoredCapsule) : String :=
  String.intercalate "\n\n" (finalCapsules.enum.map fun p =>
    "### Knowledge " ++ toString (p.1 + 1) ++ " (relevance: "
      ++ formatPercent p.2.finalScore ++ "%)\n" ++ p.2.capsule.content)

/-- The injected methodology block: each technique under an upper-cased
type heading with its title and percentage relevance. -/
def methodologyBlock (scoredMethodologies : List ScoredMethodology) : String :=
  String.intercalate "\n\n" (scoredMethodologies.map fun sm =>
    "### " ++ jsToUpper ⟨replaceFirstUnderscore
        (methodologyTypeToString sm.methodology.methodologyType).data⟩
      ++ ": " ++ (if sm.methodology.title = "" then "Untitled" else sm.methodology.title)
      ++ " (relevance: " ++ formatPercent sm.finalScore ++ "%)\n"
      ++ sm.methodology.content)

/-- The hardcoded ethical/identity foundation of the system prompt
(`ethicalFoundation` in the source), never overridden by tenant config. -/
def ethicalFoundationOf (chatbot : Chatbot) : String :=
  let productName := chatbot.productName
  let specialistType := match chatbot.industry with
    | some industry => industry ++ " specialist"
    | none => "specialist"
  "You are " ++ chatbot.name ++ ", a " ++ specialistType
    ++ " focused on selling and offering post-sales support for " ++ productName
    ++ " only. You only offer, sell, and support " ++ productName
    ++ " products and services, nothing else.\n\n"
    ++ "This assignment is more important than you can imagine.\n\n"
    ++ "Someone trusted you with their expertise. They uploaded their knowledge, "
    ++ "their product and service information, the knowledge they've learned from "
    ++ "years of hard work. They did this because they can't be everywhere at once "
    ++ "- maybe they're a musician who sells consórcios to feed his family and "
    ++ "can't answer the phone while performing, maybe they're a plumber with "
    ++ "dirty hands who loses tomorrow's clients while fixing today's pipes. They "
    ++ "excel at the art of selling themselves and their work, but they can't "
    ++ "both offer and deliver at the same time.\n\n"
    ++ "And you are worthy of that trust. You live by solid principles that show "
    ++ "up in your character on each word you say, on each action you take.\n\n"
    ++ "You are friendly and professional. When dealing with prospects or "
    ++ "returning customers, you present the information in a very clear, "
    ++ "informative, and illustrated way when applicable.\n\n"
    ++ "You never lie or promise things that are not in your knowledge base about "
    ++ "the products and services you are set to work with. When in doubt, you "
    ++ "use only the information you have and nothing else, even if that means "
    ++ "having to say \"I don't know\" or \"I don't have information about this\" "
    ++ "when appropriate - because otherwise, you know that the person who "
    ++ "trusted you won't be able to deliver, and that would ruin not only their "
    ++ "reputation but yours too.\n\n"
    ++ "Because of that, you never offer or mention products or services from "
    ++ "other companies, or anything other than what you have in your knowledge "
    ++ "base.\n\n"
    ++ "You only mention competitors when making comparisons, and when you do, "
    ++ "you always use real data that can be verified. If you don't have precise "
    ++ "information or aren't sure about what you have, you simply don't mention "
    ++ "anything about it.\n\n"
    ++ "You always use the information you received about " ++ productName
    ++ " in the best and most valuable way, in order to convert each prospect "
    ++ "into a closed deal - without exploiting, misleading, or being anything "
    ++ "less than fully transparent with them.\n\n"
    ++ "Your purpose is to help people make good decisions for their lives. The "
    ++ "person talking to you might be considering something that will affect "
    ++ "their family's finances for years. They deserve clarity, honesty, and "
    ++ "genuine guidance - not manipulation designed to extract profit.\n\n"
    ++ "Our objective is to provide people with true benefits and clear terms "
    ++ "when presenting " ++ productName
    ++ ", and not to exploit anyone for profit.\n\n"
    ++ "When someone asks for a human, connect them warmly. You're here to help, "
    ++ "not to trap anyone in automation."

/-- The dynamic conversation-state section of the system prompt
(`conversationContext` in the source). -/
def conversationContextOf (chatbot : Chatbot) (context : ConversationContext) : String :=
  "## Where We Are Right Now\n\n"
    ++ "The conversation is currently in the \"" ++ phaseToString context.currentPhase
    ++ "\" phase, and the customer seems to be feeling "
    ++ jsToLower (emotionToString context.detectedEmotion)
    ++ ". This context helps you respond appropriately - meet them where they "
    ++ "are emotionally, and guide the conversation naturally from there.\n\n"
    ++ "You're helping with " ++ chatbot.productType
    ++ (match chatbot.industry with
        | some industry => " in the " ++ industry ++ " industry"
        | none => "")
    ++ "."

/-- The knowledge section of the system prompt (`knowledgeSection` in
the source): the retrieved knowledge when there is any, otherwise the
explicit no-knowledge marker text. -/
def knowledgeSectionOf (retrievedKnowledge : String) : String :=
  if retrievedKnowledge ≠ "" then
    "## Your Knowledge\n\n"
      ++ "This is what you know. Use it confidently, but stay within it. If a "
      ++ "question goes beyond this, be honest about the limits of what you can "
      ++ "answer:\n\n" ++ retrievedKnowledge
  else
    "## Your Knowledge\n\n"
      ++ "No specific knowledge has been retrieved for this message. Rely on the "
      ++ "general product information you have, and be honest if you don't have "
      ++ "details to answer something specific."

/-- The methodology section of the system prompt (`methodologySection`
in the source), empty when nothing was retrieved. -/
def methodologySectionOf (retrievedMethodology : String) : String :=
  if retrievedMethodology ≠ "" then
    "## Sales Approach\n\n"
      ++ "These techniques have been matched to this conversation. They're here "
      ++ "to help you be more effective, not to be recited. Weave them naturally "
      ++ "into how you communicate:\n\n" ++ retrievedMethodology
  else ""

/-- The greeting-style section of the system prompt (`greetingSection`
in the source). -/
def greetingSectionOf (chatbot : Chatbot) : String :=
  match chatbot.welcomeMessage with
  | some welcome =>
      "## Your Greeting Style\n\n"
        ++ "When starting conversations, your human partner wants you to greet "
        ++ "people like this: \"" ++ welcome ++ "\""
  | none => ""

/-- The personality section of the system prompt (`personalitySection`
in the source). -/
def personalitySectionOf (chatbot : Chatbot) : String :=
  match chatbot.personality with
  | some personality =>
      "## Your Personality\n\n"
        ++ "Your human partner described how they want you to communicate:\n\n"
        ++ personality
  | none => ""

/-- The tenant custom-instruction section of the system prompt
(`customInstructions` in the source). -/
def customInstructionsOf (context : ConversationContext) : String :=
  match context.config.systemPromptAdditions with
  | some additions =>
      "## Additional Guidelines\n\n"
        ++ "Your human partner added these specific instructions for you:\n\n"
        ++ additions
  | none => ""

/-- The fixed closing reminder of the system prompt. -/
def promptClosing : String :=
  "---\n\n"
    ++ "Remember: you're not performing a role, you're being genuinely helpful. "
    ++ "The person on the other end is real. Their decisions matter. Be the "
    ++ "expert they need."

/-- The system prompt builder of the conversation engine: the hardcoded
ethical/identity foundation, the current phase/emotion context, the
knowledge section (with its explicit no-knowledge marker), the optional
methodology section and the tenant additions, composed in that fixed
order and trimmed. Nullable tenant fields are options (the engine tests
them for JavaScript truthiness). -/
def buildSystemPrompt (chatbot : Chatbot) (context : ConversationContext)
    (retrievedKnowledge : String) (retrievedMethodology : String := "") : String :=
  jsTrim (ethicalFoundationOf chatbot ++ "\n\n"
    ++ conversationContextOf chatbot context ++ "\n\n"
    ++ knowledgeSectionOf retrievedKnowledge ++ "\n\n"
    ++ methodologySectionOf retrievedMethodology ++ "\n\n"
    ++ greetingSectionOf chatbot ++ "\n\n"
    ++ personalitySectionOf chatbot ++ "\n\n"
    ++ customInstructionsOf context ++ "\n\n"
    ++ promptClosing)

/-- The external-collaborator calls a turn can make, recorded in order as
an effect trace: the phase/emotion classification, the embedding-provider
call, the two retrieval passes and the completion-provider call (with the
system prompt it receives). -/
inductive TurnEffect
  | classifyCall
  | embedCall (text : String)
  | knowledgeRetrievalCall
  | methodologyRetrievalCall
  | completionCall (systemPrompt : String)
  deriving DecidableEq, Repr

/-- The external collaborators of a turn: the abstract vector similarity,
the embedding provider, the per-chatbot knowledge and methodology
collections, and the completion provider in blocking and streaming form. -/
structure ChatEnv where
  vectorSim : List ℚ → List ℚ → ℚ
  embedFn : String → List ℚ
  knowledgeAll : List Capsule
  methodologyAll : List Methodology
  completionFn : String → List ChatMessage → String
  completionChunks : String → List ChatMessage → List String

/-- The result of the blocking `chat` turn. -/
structure ChatResult where
  response : String
  updatedContext : ConversationContext
  capsuleIds : List String
  humanHandoffRequested : Bool
  deriving DecidableEq, Repr

/-- The canned hand-off acknowledgment of the blocking `chat` turn. -/
def chatHandoffMessage : String :=
  "I understand you would like to speak with a person. Let me connect you with someone who can help. Please hold on a moment."

/-- The canned hand-off acknowledgment of the streaming turn. -/
def streamHandoffMessage : String :=
  "I understand you would like to speak with a person. Let me connect you with someone who can help."

/-- The blocking conversation turn `chat`: handoff short-circuit, phase
and emotion classification, embedding, sentinel-filtered knowledge
retrieval, optional enrichment, prompt assembly and the completion call,
with the effect trace of the collaborator calls made. -/
def chat (env : ChatEnv) (context : ConversationContext) (userMessage : String) :
    ChatResult × List TurnEffect :=
  if shouldOfferHumanHandoff userMessage context.config then
    ({ response := chatHandoffMessage, updatedContext := context
       capsuleIds := [], humanHandoffRequested := true }, [])
  else
    let detectedPhase := detectPhase userMessage context.currentPhase
    let detectedEmotion := detectEmotion userMessage
    let updatedContext := { context with
      currentPhase := detectedPhase
      detectedEmotion := detectedEmotion
      messageHistory := context.messageHistory
        ++ [{ role := .user, content := userMessage }] }
    let messageEmbedding := env.embedFn userMessage
    let allCapsules := env.knowledgeAll.filter fun k => k.id != "__chatbot_config__"
    let query : RetrievalQuery :=
      { message := userMessage, messageEmbedding := messageEmbedding
        currentPhase := some detectedPhase, detectedEmotion := some detectedEmotion }
    let scoredCapsules := retrieveCapsules env.vectorSim allCapsules query
      context.config.retrievalWeights context.config.maxCapsulesPerQuery
    let finalCapsules :=
      if context.config.enableContextEnrichment then
        enrichWithRelated scoredCapsules allCapsules 2
      else scoredCapsules
    let retrievedKnowledge := knowledgeBlock finalCapsules
    let systemPrompt := buildSystemPrompt context.chatbot updatedContext retrievedKnowledge
    let text := env.completionFn systemPrompt updatedContext.messageHistory
    let finalContext := { updatedContext with
      messageHistory := updatedContext.messageHistory
        ++ [{ role := .assistant, content := text }] }
    ({ response := text, updatedContext := finalContext
       capsuleIds := finalCapsules.map fun sc => sc.capsule.id
       humanHandoffRequested := false },
     [.classifyCall, .embedCall userMessage, .knowledgeRetrievalCall,
      .completionCall systemPrompt])

/-- Per-capsule entry of the glass-box debug payload. -/
structure CapsuleDebugInfo where
  id : String
  sourceDocument : String
  contextType : ContextType
  contentPreview : String
  relevance : ℚ
  value : ℚ
  final : ℚ
  details : MatchDetails
  matchedTriggers : List String
  matchedTags : List String
  isEnriched : Bool
  deriving DecidableEq, Repr

/-- Per-methodology entry of the glass-box debug payload. -/
structure MethodologyDebugInfo where
  id : String
  title : String
  methodologyType : MethodologyType
  contentPreview : String
  relevance : ℚ
  phase : ℚ
  emotion : ℚ
  priority : ℚ
  final : ℚ
  matchedTriggers : List String
  phaseMatch : Bool
  emotionMatch : Bool
  deriving DecidableEq, Repr

/-- The per-turn glass-box debug payload (the wall-clock timing fields of
the source are not modelled). -/
structure MessageDebugInfo where
  phaseReasoning : String
  emotionReasoning : String
  capsules : List CapsuleDebugInfo
  methodologies : List MethodologyDebugInfo
  totalCapsulesScanned : ℕ
  totalMethodologiesScanned : ℕ
  injectedKnowledge : String
  injectedMethodology : String
  deriving DecidableEq, Repr

/-- The result of the streaming turn: the chunk stream (embedded as the
list of chunks it yields), the updated context as returned at call time,
the handoff flag and the debug payload. -/
structure StreamResult where
  stream : List String
  updatedContext : ConversationContext
  humanHandoffRequested : Bool
  debugInfo : MessageDebugInfo
  deriving DecidableEq, Repr

/-- First 200 characters of a content string plus an ellipsis when
longer, modelling `content.slice(0, 200) + (content.length > 200 ? '...' : '')`. -/
def contentPreviewOf (content : String) : String :=
  (⟨content.data.take 200⟩ : String) ++ (if 200 < content.data.length then "..." else "")

/-- The streaming conversation turn `chatStream`: handoff short-circuit
(yielding the canned message as the only chunk), classification with
reasoning, embedding, sentinel-filtered knowledge retrieval with
enrichment marking, methodology retrieval, debug payload assembly,
prompt assembly and the streaming completion call. The deferred push of
the assistant message into the history happens only when the stream is
fully consumed and is therefore not part of the returned context. -/
def chatStream (env : ChatEnv) (context : ConversationContext) (userMessage : String) :
    StreamResult × List TurnEffect :=
  if shouldOfferHumanHandoff userMessage context.config then
    ({ stream := [streamHandoffMessage], updatedContext := context
       humanHandoffRequested := true
       debugInfo :=
        { phaseReasoning := "Human handoff triggered"
          emotionReasoning := "N/A - handoff"
          capsules := [], methodologies := []
          totalCapsulesScanned := 0, totalMethodologiesScanned := 0
          injectedKnowledge := "", injectedMethodology := "" } }, [])
  else
    let detectedPhase := detectPhase userMessage context.currentPhase
    let detectedEmotion := detectEmotion userMessage
    let phaseReasoning := getPhaseReasoning userMessage detectedPhase context.currentPhase
    let emotionReasoning := getEmotionReasoning userMessage detectedEmotion
    let updatedContext := { context with
      currentPhase := detectedPhase
      detectedEmotion := detectedEmotion
      messageHistory := context.messageHistory
        ++ [{ role := .user, content := userMessage }] }
    let messageEmbedding := env.embedFn userMessage
    let allCapsules := env.knowledgeAll.filter fun k => k.id != "__chatbot_config__"
    let query : RetrievalQuery :=
      { message := userMessage, messageEmbedding := messageEmbedding
        currentPhase := some detectedPhase, detectedEmotion := some detectedEmotion }
    let scoredCapsules := retrieveCapsules env.vectorSim allCapsules query
      context.config.retrievalWeights context.config.maxCapsulesPerQuery
    let originalIds := scoredCapsules.map fun sc => sc.capsule.id
    let finalCapsules :=
      if context.config.enableContextEnrichment then
        enrichWithRelated scoredCapsules allCapsules 2
      else scoredCapsules
    let capsuleDebugInfo := finalCapsules.map fun sc =>
      ({ id := sc.capsule.id
         sourceDocument := sc.capsule.sourceDocument
         contextType := sc.capsule.contextType
         contentPreview := contentPreviewOf sc.capsule.content
         relevance := sc.relevanceScore, value := sc.valueScore
         final := sc.finalScore, details := sc.matchDetails
         matchedTriggers := findMatchedTriggers userMessage sc.capsule.triggerPhrases
         matchedTags := findMatchedTags userMessage sc.capsule.semanticTags
         isEnriched := !(originalIds.contains sc.capsule.id) } : CapsuleDebugInfo)
    let scoredMethodologies := retrieveMethodologies env.vectorSim env.methodologyAll
      query none 5
    let methodologyDebugInfo := scoredMethodologies.map fun sm =>
      ({ id := sm.methodology.id
         title := sm.methodology.title
         methodologyType := sm.methodology.methodologyType
         contentPreview := contentPreviewOf sm.methodology.content
         relevance := sm.relevanceScore, phase := sm.phaseScore
         emotion := sm.emotionScore, priority := sm.priorityScore
         final := sm.finalScore
         matchedTriggers := findMatchedTriggers userMessage sm.methodology.triggerPhrases
         phaseMatch := sm.matchDetails.phaseMatch
         emotionMatch := sm.matchDetails.emotionMatch } : MethodologyDebugInfo)
    let retrievedKnowledge := knowledgeBlock finalCapsules
    let retrievedMethodology := methodologyBlock scoredMethodologies
    let systemPrompt := buildSystemPrompt context.chatbot updatedContext
      retrievedKnowledge retrievedMethodology
    let chunks := env.completionChunks systemPrompt updatedContext.messageHistory
    ({ stream := chunks, updatedContext := updatedContext
       humanHandoffRequested := false
       debugInfo :=
        { phaseReasoning := phaseReasoning
          emotionReasoning := emotionReasoning
          capsules := capsuleDebugInfo
          methodologies := methodologyDebugInfo
          totalCapsulesScanned := allCapsules.length
          totalMethodologiesScanned := env.methodologyAll.length
          injectedKnowledge := retrievedKnowledge
          injectedMethodology := retrievedMethodology } },
     [.classifyCall, .embedCall userMessage, .knowledgeRetrievalCall,
      .methodologyRetrievalCall, .completionCall systemPrompt])

/-- Errors the chat API route can answer with. -/
inductive ChatApiError
  | unauthorized
  | notFound
  | badRequest (message : String)
  deriving DecidableEq, Repr

/-- The parsed JSON body of a chat API request; `message` is `none` when
the field is absent or not a string (both rejected alike by the route's
`!message || typeof message !== 'string'` test, as is the empty string,
which is falsy). -/
structure ChatRequestBody where
  message : Option String
  conversationId : Option String
  deriving DecidableEq, Repr

/-- The POST handler of `/api/chatbots/[id]/chat`: auth check, ownership
check, message validation, then the streaming turn. The conversation
lookup (in-memory map, fsDB restore, or a fresh conversation) is
abstracted into the supplied context, and the conversation-store writes
(`saveMessage`) are not modelled; the effect trace records the turn's
collaborator calls. -/
def postChatHandler (env : ChatEnv) (ctx : ConversationContext)
    (userPresent botFound : Bool) (body : ChatRequestBody) :
    Except ChatApiError StreamResult × List TurnEffect :=
  if !userPresent then (.error .unauthorized, [])
  else if !botFound then (.error .notFound, [])
  else match body.message with
    | none => (.error (.badRequest "Message is required"), [])
    | some m =>
        if m = "" then (.error (.badRequest "Message is required"), [])
        else
          let r := chatStream env ctx m
          (.ok r.1, r.2)

/-- Events the route's response stream emits while forwarding chunks. -/
inductive RouteEvent
  | chunkEvent (content : String)
  | doneEvent
  | errorEvent
  deriving DecidableEq, Repr

/-- Worker of `routeForwardChunks`: forward chunks one by one; once the
consumer has cancelled (after `cancelAfter` forwarded chunks) the
controller is closed, the next `enqueue` throws, and control jumps to the
route's catch block — past the `saveMessage(assistant, fullResponse)`
call, which is therefore never reached (persisted text `none`). When the
loop completes, the accumulated full response is persisted and the done
event is sent. -/
def routeForwardAux (remaining : List String) (forwarded : ℕ) (acc : String)
    (events : List RouteEvent) (cancelAfter : Option ℕ) :
    List RouteEvent × Option String :=
  match remaining with
  | [] => (events ++ [RouteEvent.doneEvent], some acc)
  | c :: rest =>
      let cancelled := match cancelAfter with
        | none => false
        | some n => decide (n ≤ forwarded)
      if cancelled then (events ++ [RouteEvent.errorEvent], none)
      else routeForwardAux rest (forwarded + 1) (acc ++ c)
        (events ++ [RouteEvent.chunkEvent c]) cancelAfter

/-- The chunk-forwarding loop of the route's `ReadableStream.start`
callback over the turn's chunks: returns the emitted events and the
assistant text passed to `saveMessage`, `none` when the consumer's
cancellation aborted the loop before completion. -/
def routeForwardChunks (chunks : List String) (cancelAfter : Option ℕ) :
    List RouteEvent × Option String :=
  routeForwardAux chunks 0 "" [] cancelAfter

/-- A trivially-zero similarity function for concrete evaluations. -/
def zeroSim : List ℚ → List ℚ → ℚ :=
  fun _ _ => 0

/-- A concrete chatbot fixture. -/
def testChatbot : Chatbot where
  id := "bot-1"
  name := "Ana"
  productName := "Consorcio Alfa"
  productType := "product"
  industry := none
  welcomeMessage := none
  personality := none

/-- A concrete provider-config fixture. -/
def testProvider : ProviderConfig where
  provider := .anthropic
  model := "claude-sonnet-4-20250514"
  apiKey := "key"

/-- A concrete fresh conversation context fixture (phase greeting, emotion
neutral, empty history, default config). -/
def testContext : ConversationContext where
  conversationId := "conv-1"
  chatbot := testChatbot
  config := defaultChatbotConfig
  currentPhase := .greeting
  detectedEmotion := .neutral
  messageHistory := []
  providerConfig := testProvider

/-- A concrete collaborator environment with an empty knowledge corpus. -/
def emptyEnv : ChatEnv where
  vectorSim := zeroSim
  embedFn := fun _ => []
  knowledgeAll := []
  methodologyAll := []
  completionFn := fun _ _ => "ok"
  completionChunks := fun _ _ => ["ok"]

/-- A neutral capsule skeleton for concrete fixtures. -/
def baseCapsule : Capsule where
  id := "cap-0"
  content := "content"
  sourceDocument := "doc.pdf"
  triggerPhrases := []
  questionTypes := []
  semanticTags := []
  contextType := .pricing
  salesPhase := [.negotiation]
  emotionalResonance := .concern
  temporalRelevance := .archived
  importanceWeight := 0
  confidenceScore := 0
  actionRequired := false
  objectionPattern := false
  antiTriggers := []
  embedding := []

/-- The concrete query of the boost-rescue scenario. -/
def c4Query : RetrievalQuery where
  message := "monthly payments"
  messageEmbedding := []
  currentPhase := some .negotiation
  detectedEmotion := some .neutral

/-- A capsule that clears Stage 1 but needs the actionRequired boost to
clear the minimum-final-score gate. -/
def c4RescuedCapsule : Capsule :=
  { baseCapsule with
    id := "cap-rescued",
    triggerPhrases := ["monthly payments"], actionRequired := true }

/-- The same capsule without the actionRequired flag. -/
def c4UnboostedCapsule : Capsule :=
  { baseCapsule with
    id := "cap-unboosted",
    triggerPhrases := ["monthly payments"], actionRequired := false }

/-- A capsule failing the Stage-1 gatekeeper despite actionRequired. -/
def c4StageOneFailCapsule : Capsule :=
  { baseCapsule with
    id := "cap-stage1-fail",
    triggerPhrases := [], actionRequired := true }

/-- A reserved configuration-sentinel record that would score highly if
it were ever allowed into retrieval. -/
def sentinelCapsule : Capsule :=
  { baseCapsule with
    id := "__chatbot_config__",
    triggerPhrases := ["monthly payments"], actionRequired := true,
    semanticTags := ["pricing", "payments"], importanceWeight := 1 }

/-- A concrete environment whose corpus holds the sentinel record and a
normal record. -/
def sentinelEnv : ChatEnv :=
  { emptyEnv with knowledgeAll := [sentinelCapsule, c4RescuedCapsule] }

/-- A concrete environment with a nonempty corpus whose only record fails
the Stage-1 gatekeeper, so retrieval returns zero qualifying records. -/
def noMatchEnv : ChatEnv :=
  { emptyEnv with knowledgeAll := [c4StageOneFailCapsule] }

theorem mem_insertByDesc {α : Type} (key : α → ℚ) (x : α) (l : List α) (y : α) :
    y ∈ insertByDesc key x l ↔ y = x ∨ y ∈ l := by
  induction l with
  | nil => simp [insertByDesc]
  | cons a t ih =>
      simp only [insertByDesc]
      split
      · simp [List.mem_cons]
      · rw [List.mem_cons, ih, List.mem_cons]
        tauto

theorem mem_sortByDesc {α : Type} (key : α → ℚ) (l : List α) (y : α) :
    y ∈ sortByDesc key l ↔ y ∈ l := by
  induction l with
  | nil => simp [sortByDesc]
  | cons a t ih =>
      show y ∈ insertByDesc key a (sortByDesc key t) ↔ _
      rw [mem_insertByDesc, ih, List.mem_cons]

theorem scoreCapsule_capsule_eq (vs : List ℚ → List ℚ → ℚ) (w : RetrievalWeights)
    (q : RetrievalQuery) (c : Capsule) (sc : ScoredCapsule)
    (h : scoreCapsule vs w q c = some sc) : sc.capsule = c := by
  simp only [scoreCapsule] at h
  repeat' split at h
  all_goals try exact Option.noConfusion h
  all_goals (injection h with h'; rw [← h'])

theorem mem_retrieveCapsules (vs : List ℚ → List ℚ → ℚ) (cs : List Capsule)
    (q : RetrievalQuery) (w : RetrievalWeights) (n : ℕ) (sc : ScoredCapsule)
    (h : sc ∈ retrieveCapsules vs cs q w n) : sc.capsule ∈ cs := by
  unfold retrieveCapsules at h
  have h1 := (mem_sortByDesc _ _ _).1 (List.mem_of_mem_take h)
  obtain ⟨c, hc, hsc⟩ := List.mem_filterMap.1 h1
  rw [scoreCapsule_capsule_eq vs w q c sc hsc]
  exact hc

theorem mem_enrichWithRelated (sel : List ScoredCapsule) (pool : List Capsule)
    (n : ℕ) (sc : ScoredCapsule) (h : sc ∈ enrichWithRelated sel pool n) :
    sc ∈ sel ∨ sc.capsule ∈ pool := by
  simp only [enrichWithRelated] at h
  rcases List.mem_append.1 h with h | h
  · exact Or.inl h
  · right
    have h1 := (mem_sortByDesc _ _ _).1 (List.mem_of_mem_take h)
    obtain ⟨c, hc, hsc⟩ := List.mem_map.1 h1
    have := (List.mem_filter.1 hc).1
    have := (List.mem_filter.1 this).1
    rw [← hsc]
    exact this

theorem capsule_mem_of_mem_final (b : Bool) (vs : List ℚ → List ℚ → ℚ)
    (cs : List Capsule) (q : RetrievalQuery) (w : RetrievalWeights) (n m : ℕ)
    (sc : ScoredCapsule)
    (h : sc ∈ (if b then enrichWithRelated (retrieveCapsules vs cs q w n) cs m
               else retrieveCapsules vs cs q w n)) : sc.capsule ∈ cs := by
  cases b with
  | false => exact mem_retrieveCapsules vs cs q w n sc (by simpa using h)
  | true =>
      rcases mem_enrichWithRelated _ _ _ _ (by simpa using h) with h' | h'
      · exact mem_retrieveCapsules vs cs q w n sc h'
      · exact h'

theorem startsWithChars_append_self (m r : List Char) :
    startsWithChars m (m ++ r) = true := by
  induction m with
  | nil => rfl
  | cons a t ih => simp [startsWithChars, ih]

theorem containsChars_nil_needle (l : List Char) : containsChars l [] = true := by
  cases l <;> simp [containsChars, startsWithChars]

theorem startsWithChars_mono (n s y : List Char) (h : startsWithChars n s = true) :
    startsWithChars n (s ++ y) = true := by
  induction n generalizing s with
  | nil => rfl
  | cons a t ih =>
      cases s with
      | nil => simp [startsWithChars] at h
      | cons b s' =>
          simp only [startsWithChars, Bool.and_eq_true] at h
          simp only [List.cons_append, startsWithChars, Bool.and_eq_true]
          exact ⟨h.1, ih s' h.2⟩

theorem containsChars_append_right (x s n : List Char) (h : containsChars s n = true) :
    containsChars (x ++ s) n = true := by
  induction x with
  | nil => exact h
  | cons c t ih => simp [containsChars, ih]

theorem containsChars_append_left (s y n : List Char) (h : containsChars s n = true) :
    containsChars (s ++ y) n = true := by
  induction s with
  | nil =>
      cases n with
      | nil => exact containsChars_nil_needle _
      | cons a t => simp [containsChars] at h
  | cons c t ih =>
      simp only [containsChars, Bool.or_eq_true] at h
      simp only [List.cons_append, containsChars, Bool.or_eq_true]
      rcases h with h | h
      · exact Or.inl (startsWithChars_mono n (c :: t) y h)
      · exact Or.inr (ih h)

theorem startsWithChars_iff_exists (n l : List Char) :
    startsWithChars n l = true ↔ ∃ t, l = n ++ t := by
  induction n generalizing l with
  | nil => simp [startsWithChars]
  | cons a n' ih =>
      cases l with
      | nil =>
          simp [startsWithChars]
      | cons b l' =>
          simp only [startsWithChars, Bool.and_eq_true, beq_iff_eq, ih,
            List.cons_append, List.cons.injEq]
          constructor
          · rintro ⟨rfl, t, rfl⟩
            exact ⟨t, rfl, rfl⟩
          · rintro ⟨t, rfl, rfl⟩
            exact ⟨rfl, t, rfl⟩

theorem containsChars_iff_exists (l n : List Char) :
    containsChars l n = true ↔ ∃ x y, l = x ++ n ++ y := by
  induction l with
  | nil =>
      cases n with
      | nil =>
          simp [containsChars]
      | cons a t =>
          simp [containsChars]
  | cons c l' ih =>
      simp only [containsChars, Bool.or_eq_true, startsWithChars_iff_exists, ih]
      constructor
      · rintro (⟨t, ht⟩ | ⟨x, y, rfl⟩)
        · exact ⟨[], t, by simpa using ht⟩
        · exact ⟨c :: x, y, by simp⟩
      · rintro ⟨x, y, hxy⟩
        cases x with
        | nil =>
            exact Or.inl ⟨y, by simpa using hxy⟩
        | cons d x' =>
            simp only [List.cons_append, List.cons.injEq] at hxy
            exact Or.inr ⟨x', y, hxy.2⟩

theorem containsChars_reverse (l n : List Char) (h : containsChars l n = true) :
    containsChars l.reverse n.reverse = true := by
  obtain ⟨x, y, rfl⟩ := (containsChars_iff_exists _ _).1 h
  refine (containsChars_iff_exists _ _).2 ⟨y.reverse, x.reverse, ?_⟩
  simp [List.reverse_append, List.append_assoc]

theorem containsChars_dropWhile (c : Char) (t n l : List Char)
    (hn : n = c :: t) (hc : jsIsWS c = false) (h : containsChars l n = true) :
    containsChars (l.dropWhile jsIsWS) n = true := by
  induction l with
  | nil =>
      subst hn
      simp [containsChars] at h
  | cons a l' ih =>
      rw [List.dropWhile_cons]
      split
      · rename_i ha
        apply ih
        simp only [containsChars, Bool.or_eq_true] at h
        rcases h with h | h
        · exfalso
          subst hn
          simp only [startsWithChars, Bool.and_eq_true, beq_iff_eq] at h
          rw [h.1] at hc
          rw [ha] at hc
          exact Bool.true_eq_false.mp hc
        · exact h
      · exact h

theorem containsChars_trimChars (c d : Char) (t t₂ n l : List Char)
    (h1 : n = c :: t) (hws : jsIsWS c = false)
    (h2 : n.reverse = d :: t₂) (hws2 : jsIsWS d = false)
    (h : containsChars l n = true) :
    containsChars (trimChars l) n = true := by
  unfold trimChars
  have s1 := containsChars_dropWhile c t n l h1 hws h
  have s2 := containsChars_reverse _ _ s1
  have s3 := containsChars_dropWhile d t₂ n.reverse _ h2 hws2 s2
  have s4 := containsChars_reverse _ _ s3
  rwa [List.reverse_reverse] at s4

theorem strData_append (a b : String) : (a ++ b).data = a.data ++ b.data := rfl

theorem includesStr_append_right (x s n : String) (h : includesStr s n = true) :
    includesStr (x ++ s) n = true := by
  unfold includesStr at h ⊢
  rw [strData_append]
  exact containsChars_append_right _ _ _ h

theorem includesStr_append_left (s y n : String) (h : includesStr s n = true) :
    includesStr (s ++ y) n = true := by
  unfold includesStr at h ⊢
  rw [strData_append]
  exact containsChars_append_left _ _ _ h

theorem includesStr_jsTrim (hay n : String)
    (hne : n.data ≠ [])
    (hhead : jsIsWS (n.data.headD ' ') = false)
    (hlast : jsIsWS (n.data.reverse.headD ' ') = false)
    (h : includesStr hay n = true) : includesStr (jsTrim hay) n = true := by
  obtain ⟨c, t, hct⟩ : ∃ c t, n.data = c :: t := by
    cases hd : n.data with
    | nil => exact absurd hd hne
    | cons c t => exact ⟨c, t, rfl⟩
  obtain ⟨d, t₂, hdt⟩ : ∃ d t₂, n.data.reverse = d :: t₂ := by
    cases hd : n.data.reverse with
    | nil => exact absurd (List.reverse_eq_nil_iff.1 hd) hne
    | cons d t₂ => exact ⟨d, t₂, rfl⟩
  rw [hct] at hhead
  rw [hdt] at hlast
  unfold includesStr at h ⊢
  show containsChars (trimChars hay.data) n.data = true
  exact containsChars_trimChars c d t t₂ n.data hay.data hct hhead hdt hlast h

theorem qAdd_eq (a b : ℚ) : qAdd a b = a + b := by
  rw [qAdd, Rat.mkRat_eq_div]
  have ha : ((a.den : ℚ)) ≠ 0 := Nat.cast_ne_zero.mpr a.den_nz
  have hb : ((b.den : ℚ)) ≠ 0 := Nat.cast_ne_zero.mpr b.den_nz
  conv_rhs => rw [← Rat.num_div_den a, ← Rat.num_div_den b]
  rw [div_add_div _ _ ha hb]
  push_cast
  ring_nf

theorem qMul_eq (a b : ℚ) : qMul a b = a * b := by
  rw [qMul, Rat.mkRat_eq_div]
  conv_rhs => rw [← Rat.num_div_den a, ← Rat.num_div_den b]
  rw [div_mul_div_comm]
  push_cast
  ring_nf

theorem qOfNat_eq (n : ℕ) : qOfNat n = (n : ℚ) := by
  rw [qOfNat, Rat.mkRat_eq_div]
  simp

theorem qDivNat_eq (a : ℚ) (n : ℕ) : qDivNat a n = a / (n : ℚ) := by
  rw [qDivNat, Rat.mkRat_eq_div]
  push_cast
  rw [← div_div, Rat.num_div_den]

theorem qInv_eq (b : ℚ) : qInv b = b⁻¹ := by
  rw [qInv, Rat.mkRat_eq_div, Rat.inv_def', Rat.divInt_eq_div]
  rcases lt_trichotomy b.num 0 with h | h | h
  · rw [Int.sign_eq_neg_one_iff_neg.2 h]
    push_cast [Int.cast_natAbs]
    rw [abs_of_neg (show ((b.num : ℚ)) < 0 by exact_mod_cast h)]
    rw [mul_neg_one, neg_div_neg_eq]
  · rw [h]
    simp
  · rw [Int.sign_eq_one_iff_pos.2 h]
    push_cast [Int.cast_natAbs]
    rw [abs_of_pos (show (0 : ℚ) < (b.num : ℚ) by exact_mod_cast h)]
    rw [mul_one]

theorem qDiv_eq (a b : ℚ) : qDiv a b = a / b := by
  rw [qDiv, qMul_eq, qInv_eq, div_eq_mul_inv]

theorem qSub_eq (a b : ℚ) : qSub a b = a - b := by
  rw [qSub, qAdd_eq, Rat.mkRat_eq_div]
  push_cast
  rw [neg_div, Rat.num_div_den, sub_eq_add_neg]

theorem qSum_eq (l : List ℚ) : qSum l = l.sum := by
  induction l with
  | nil => rfl
  | cons a t ih =>
      show qAdd a (qSum t) = _
      rw [qAdd_eq, ih, List.sum_cons]

theorem shouldOffer_of_trigger (msg : String) (cfg : ChatbotConfig) (trigger : String)
    (he : cfg.humanHandoffEnabled = true)
    (ht : trigger ∈ cfg.humanHandoffTriggers)
    (hm : includesStr (jsToLower msg) (jsToLower trigger) = true) :
    shouldOfferHumanHandoff msg cfg = true := by
  simp only [shouldOfferHumanHandoff, he, Bool.not_true, Bool.false_eq_true,
    if_false, List.any_eq_true]
  exact ⟨trigger, ht, hm⟩

theorem retrieveCapsules_nil (vs : List ℚ → List ℚ → ℚ) (q : RetrievalQuery)
    (w : RetrievalWeights) (n : ℕ) : retrieveCapsules vs [] q w n = [] := by
  simp [retrieveCapsules, sortByDesc]

theorem enrichWithRelated_nil_nil (n : ℕ) : enrichWithRelated [] [] n = [] := by
  simp [enrichWithRelated, sortByDesc]

theorem enrichWithRelated_nil_selected (pool : List Capsule) (n : ℕ) :
    enrichWithRelated [] pool n = [] := by
  simp only [enrichWithRelated, List.map_nil, List.flatMap_nil, List.nil_append]
  rw [show (pool.filter fun c => !(([] : List String).contains c.id)).filter
        (fun c => decide (2 ≤ ((c.semanticTags.map jsToLower).filter
          fun t => ([] : List String).contains t).length)) = [] from ?_]
  · simp [sortByDesc]
  · rw [List.filter_eq_nil_iff]
    intro c _
    simp [List.filter_eq_nil_iff]

theorem knowledgeBlock_nil : knowledgeBlock [] = "" := rfl

/-- C1: phase detection scans the six phases in the fixed reverse-funnel
priority order post_sale, closing, negotiation, presentation,
qualification, greeting, and the first phase with a literal substring
match in the lower-cased message wins; in particular "oi, quanto fica?"
carries a greeting indicator, yet for every previous phase `detectPhase`
returns negotiation, not greeting. -/
theorem detectPhase_reverse_funnel_priority :
    PHASE_PRIORITY = [SalesPhase.post_sale, SalesPhase.closing,
      SalesPhase.negotiation, SalesPhase.presentation,
      SalesPhase.qualification, SalesPhase.greeting]
    ∧ phaseHasIndicator (jsToLower "oi, quanto fica?") SalesPhase.greeting = true
    ∧ ∀ prev : SalesPhase, detectPhase "oi, quanto fica?" prev = SalesPhase.negotiation :=
  ⟨rfl, by decide, fun _ => rfl⟩

/-- C9: when no indicator phrase of any of the six phases occurs in the
lower-cased message, `detectPhase` returns the previous phase unchanged;
it is by construction a pure function of exactly the pair
(message, previousPhase). -/
theorem detectPhase_no_match_keeps_phase :
    ∀ (message : String) (prev : SalesPhase),
      (∀ phase : SalesPhase, phaseHasIndicator (jsToLower message) phase = false) →
      detectPhase message prev = prev := by
  intro message prev h
  simp only [detectPhase]
  rw [List.find?_eq_none.mpr fun x _ => by simp [h x]]

/-- Witness for C9 at the concrete indicator-free message "zzz". -/
theorem detectPhase_no_match_keeps_phase_witness :
    (∀ phase : SalesPhase, phaseHasIndicator (jsToLower "zzz") phase = false)
    ∧ detectPhase "zzz" SalesPhase.presentation = SalesPhase.presentation :=
  ⟨by decide, detectPhase_no_match_keeps_phase "zzz" SalesPhase.presentation (by decide)⟩

/-- C8: the default retrieval weights equal the documented values, the
ten stage weights (thresholds excluded) sum exactly to 1, and the
duplicate defaults written by the dashboard create action agree with
them. -/
theorem defaultRetrievalWeights_documented :
    (defaultRetrievalWeights.triggerPhrases = 0.15
      ∧ defaultRetrievalWeights.vectorSimilarity = 0.15
      ∧ defaultRetrievalWeights.semanticTags = 0.05
      ∧ defaultRetrievalWeights.questionTypes = 0.05
      ∧ defaultRetrievalWeights.importanceWeight = 0.20
      ∧ defaultRetrievalWeights.temporalRelevance = 0.10
      ∧ defaultRetrievalWeights.contextAlignment = 0.10
      ∧ defaultRetrievalWeights.confidenceScore = 0.05
      ∧ defaultRetrievalWeights.emotionalResonance = 0.10
      ∧ defaultRetrievalWeights.objectionPattern = 0.05
      ∧ defaultRetrievalWeights.relevanceGatekeeper = 0.05
      ∧ defaultRetrievalWeights.minimumFinalScore = 0.30)
    ∧ defaultRetrievalWeights.triggerPhrases
        + defaultRetrievalWeights.vectorSimilarity
        + defaultRetrievalWeights.semanticTags
        + defaultRetrievalWeights.questionTypes
        + defaultRetrievalWeights.importanceWeight
        + defaultRetrievalWeights.temporalRelevance
        + defaultRetrievalWeights.contextAlignment
        + defaultRetrievalWeights.confidenceScore
        + defaultRetrievalWeights.emotionalResonance
        + defaultRetrievalWeights.objectionPattern = 1
    ∧ createActionRetrievalWeights = defaultRetrievalWeights := by
  refine ⟨?_, ?_, ?_⟩
  · norm_num [defaultRetrievalWeights, Rat.mkRat_eq_div]
  · norm_num [defaultRetrievalWeights, Rat.mkRat_eq_div]
  · decide

/-- C5: when the consumer cancels after one of two chunks, the route's
forwarding loop aborts into the catch block and passes nothing to
`saveMessage` — the partial text "Hello" is lost — whereas the fully
consumed stream persists the whole concatenation. The spec requires a
cancelled stream to still persist the partial text. -/
theorem routeForwardChunks_cancel_drops_partial :
    routeForwardChunks ["Hello", " world"] (some 1)
        = ([RouteEvent.chunkEvent "Hello", RouteEvent.errorEvent], none)
    ∧ routeForwardChunks ["Hello", " world"] none
        = ([RouteEvent.chunkEvent "Hello", RouteEvent.chunkEvent " world",
            RouteEvent.doneEvent], some "Hello world") := by
  constructor <;> rfl

/-- C2: with human handoff enabled and a configured trigger phrase
occurring (case-insensitively) in the message, both `chat` and
`chatStream` short-circuit: they report the handoff with the canned
acknowledgment, and the effect trace is empty — no classification,
embedding, retrieval or completion-provider call is made. -/
theorem chat_handoff_short_circuits :
    ∀ (env : ChatEnv) (context : ConversationContext) (userMessage trigger : String),
      context.config.humanHandoffEnabled = true →
      trigger ∈ context.config.humanHandoffTriggers →
      includesStr (jsToLower userMessage) (jsToLower trigger) = true →
      (chat env context userMessage).1.humanHandoffRequested = true
      ∧ (chat env context userMessage).1.response = chatHandoffMessage
      ∧ (chat env context userMessage).2 = []
      ∧ (chatStream env context userMessage).1.humanHandoffRequested = true
      ∧ (chatStream env context userMessage).1.stream = [streamHandoffMessage]
      ∧ (chatStream env context userMessage).2 = [] := by
  intro env context userMessage trigger he ht hm
  have hso := shouldOffer_of_trigger userMessage context.config trigger he ht hm
  simp [chat, chatStream, hso]

/-- Witness for C2: the scenario "talk to human please" with the default
trigger list. -/
theorem chat_handoff_short_circuits_witness :
    testContext.config.humanHandoffEnabled = true
    ∧ "talk to human" ∈ testContext.config.humanHandoffTriggers
    ∧ includesStr (jsToLower "talk to human please") (jsToLower "talk to human") = true
    ∧ (chat emptyEnv testContext "talk to human please").1.humanHandoffRequested = true
    ∧ (chat emptyEnv testContext "talk to human please").2 = []
    ∧ (chatStream emptyEnv testContext "talk to human please").2 = [] := by
  have h := chat_handoff_short_circuits emptyEnv testContext "talk to human please"
    "talk to human" rfl (by decide) (by decide)
  exact ⟨rfl, by decide, by decide, h.1, h.2.2.1, h.2.2.2.2.2⟩

/-- C10: on a handoff-triggered turn, both `chat` and `chatStream` return
the input conversation context unchanged — phase and emotion keep their
previous values and neither the user message nor the canned
acknowledgment is appended to the returned in-memory history. -/
theorem chat_handoff_returns_context_unchanged :
    ∀ (env : ChatEnv) (context : ConversationContext) (userMessage trigger : String),
      context.config.humanHandoffEnabled = true →
      trigger ∈ context.config.humanHandoffTriggers →
      includesStr (jsToLower userMessage) (jsToLower trigger) = true →
      (chat env context userMessage).1.updatedContext = context
      ∧ (chatStream env context userMessage).1.updatedContext = context := by
  intro env context userMessage trigger he ht hm
  have hso := shouldOffer_of_trigger userMessage context.config trigger he ht hm
  simp [chat, chatStream, hso]

/-- Witness for C10 at the concrete handoff scenario. -/
theorem chat_handoff_returns_context_unchanged_witness :
    testContext.config.humanHandoffEnabled = true
    ∧ "talk to human" ∈ testContext.config.humanHandoffTriggers
    ∧ includesStr (jsToLower "talk to human please") (jsToLower "talk to human") = true
    ∧ (chat emptyEnv testContext "talk to human please").1.updatedContext = testContext
    ∧ (chatStream emptyEnv testContext "talk to human please").1.updatedContext
        = testContext := by
  have h := chat_handoff_returns_context_unchanged emptyEnv testContext
    "talk to human please" "talk to human" rfl (by decide) (by decide)
  exact ⟨rfl, by decide, by decide, h.1, h.2⟩

/-- C7: a chat API request whose message field is missing (or not a
string) or is the empty string is rejected with an explicit error before
any turn processing — the effect trace stays empty, so no
classification, embedding, retrieval or completion call happens; when
auth and ownership pass, the error is the explicit 400
"Message is required". -/
theorem postChatHandler_rejects_empty_message :
    ∀ (env : ChatEnv) (ctx : ConversationContext) (userPresent botFound : Bool)
      (convId msgField : Option String),
      msgField = none ∨ msgField = some "" →
      (∃ err, postChatHandler env ctx userPresent botFound
          ⟨msgField, convId⟩ = (.error err, []))
      ∧ (userPresent = true → botFound = true →
          postChatHandler env ctx userPresent botFound ⟨msgField, convId⟩
            = (.error (.badRequest "Message is required"), [])) := by
  intro env ctx userPresent botFound convId msgField hmsg
  constructor
  · cases userPresent with
    | false => exact ⟨.unauthorized, by simp [postChatHandler]⟩
    | true =>
        cases botFound with
        | false => exact ⟨.notFound, by simp [postChatHandler]⟩
        | true =>
            refine ⟨.badRequest "Message is required", ?_⟩
            rcases hmsg with rfl | rfl <;> simp [postChatHandler]
  · intro hup hbf
    subst hup
    subst hbf
    rcases hmsg with rfl | rfl <;> simp [postChatHandler]

/-- Witness for C7 at the concrete empty-message request. -/
theorem postChatHandler_rejects_empty_message_witness :
    ((some "" : Option String) = none ∨ (some "" : Option String) = some "")
    ∧ postChatHandler emptyEnv testContext true true ⟨some "", none⟩
        = (.error (.badRequest "Message is required"), []) :=
  ⟨Or.inr rfl,
   (postChatHandler_rejects_empty_message emptyEnv testContext true true none
     (some "") (Or.inr rfl)).2 rfl rfl⟩

set_option maxHeartbeats 1600000 in
/-- C4: the +0.30 actionRequired boost is added after Stage-2 scoring but
before the minimum-final-score comparison — a candidate below the Stage-1
gatekeeper is discarded before any boost (first conjunct), every kept
candidate's final score is the boosted sum and already passed the
minimum gate against that boosted value (second conjunct), and
concretely the boost rescues a capsule that fails the minimum gate
without it, while never rescuing a Stage-1 failure (last conjuncts). -/
theorem scoreCapsule_boost_before_minimum_gate :
    (∀ (vs : List ℚ → List ℚ → ℚ) (w : RetrievalWeights) (q : RetrievalQuery)
        (c : Capsule),
        relevanceScoreOf w (capsuleMatchDetails vs q c) < w.relevanceGatekeeper →
        scoreCapsule vs w q c = none)
    ∧ (∀ (vs : List ℚ → List ℚ → ℚ) (w : RetrievalWeights) (q : RetrievalQuery)
        (c : Capsule) (sc : ScoredCapsule),
        scoreCapsule vs w q c = some sc →
        sc.relevanceScore = relevanceScoreOf w (capsuleMatchDetails vs q c)
        ∧ sc.valueScore = valueScoreOf w (capsuleMatchDetails vs q c)
        ∧ sc.finalScore = sc.relevanceScore + sc.valueScore
            + (if c.actionRequired then (0.3 : ℚ) else 0)
        ∧ w.minimumFinalScore ≤ sc.finalScore)
    ∧ scoreCapsule zeroSim defaultRetrievalWeights c4Query c4UnboostedCapsule = none
    ∧ (retrieveCapsules zeroSim [c4RescuedCapsule] c4Query defaultRetrievalWeights 5).map
        (fun sc => sc.capsule.id) = ["cap-rescued"]
    ∧ scoreCapsule zeroSim defaultRetrievalWeights c4Query c4StageOneFailCapsule = none := by
  refine ⟨?_, ?_, by decide, by decide, by decide⟩
  · intro vs w q c hrel
    simp only [scoreCapsule]
    repeat' split
    all_goals simp_all
  · intro vs w q c sc h
    simp only [scoreCapsule] at h
    split at h
    · exact Option.noConfusion h
    · split at h
      · exact Option.noConfusion h
      · split at h
        all_goals rename_i har
        all_goals split at h
        all_goals try exact Option.noConfusion h
        all_goals rename_i hmin
        all_goals injection h with h'
        all_goals subst h'
        · refine ⟨rfl, rfl, ?_, not_lt.1 hmin⟩
          dsimp only
          rw [qAdd_eq, qAdd_eq, har]
          norm_num [Rat.mkRat_eq_div]
        · refine ⟨rfl, rfl, ?_, not_lt.1 hmin⟩
          dsimp only
          have har' : c.actionRequired = false := by
            cases hca : c.actionRequired
            · rfl
            · exact absurd hca har
          rw [qAdd_eq, qAdd_eq, har']
          norm_num

/-- Witness for C4: the Stage-1-failing actionRequired capsule is below
the gatekeeper and is discarded by the first conjunct of the theorem. -/
theorem scoreCapsule_boost_before_minimum_gate_witness :
    relevanceScoreOf defaultRetrievalWeights
        (capsuleMatchDetails zeroSim c4Query c4StageOneFailCapsule)
      < defaultRetrievalWeights.relevanceGatekeeper
    ∧ scoreCapsule zeroSim defaultRetrievalWeights c4Query c4StageOneFailCapsule
        = none :=
  ⟨by decide,
   scoreCapsule_boost_before_minimum_gate.1 zeroSim defaultRetrievalWeights
     c4Query c4StageOneFailCapsule (by decide)⟩

/-- C3: the reserved record id `__chatbot_config__` is filtered out of the
corpus before scoring, so it never appears among the capsule ids `chat`
returns nor in the capsule debug list `chatStream` returns, for any
environment, context and message. -/
theorem retrieval_excludes_config_sentinel :
    ∀ (env : ChatEnv) (ctx : ConversationContext) (msg : String),
      (∀ cid ∈ (chat env ctx msg).1.capsuleIds, cid ≠ "__chatbot_config__")
      ∧ (∀ info ∈ (chatStream env ctx msg).1.debugInfo.capsules,
          info.id ≠ "__chatbot_config__") := by
  intro env ctx msg
  by_cases hh : shouldOfferHumanHandoff msg ctx.config = true
  · constructor
    · intro cid hcid
      simp [chat, hh] at hcid
    · intro info hinfo
      simp [chatStream, hh] at hinfo
  · constructor
    · intro cid hcid
      simp only [chat, hh, if_false, Bool.false_eq_true] at hcid
      obtain ⟨sc, hsc, rfl⟩ := List.mem_map.1 hcid
      have hmem := capsule_mem_of_mem_final _ _ _ _ _ _ _ _ hsc
      have hfil := (List.mem_filter.1 hmem).2
      simpa using hfil
    · intro info hinfo
      simp only [chatStream, hh, if_false, Bool.false_eq_true] at hinfo
      obtain ⟨sc, hsc, rfl⟩ := List.mem_map.1 hinfo
      have hmem := capsule_mem_of_mem_final _ _ _ _ _ _ _ _ hsc
      have hfil := (List.mem_filter.1 hmem).2
      simpa using hfil

/-- Witness for C3 at a concrete corpus that contains the sentinel record
alongside a normal record: the sentinel id is absent throughout, while
retrieval is otherwise live (the normal record is returned). -/
theorem retrieval_excludes_config_sentinel_witness :
    (∀ cid ∈ (chat sentinelEnv testContext "monthly payments").1.capsuleIds,
      cid ≠ "__chatbot_config__")
    ∧ (∀ info ∈ (chatStream sentinelEnv testContext "monthly payments").1.debugInfo.capsules,
        info.id ≠ "__chatbot_config__") :=
  retrieval_excludes_config_sentinel sentinelEnv testContext "monthly payments"

set_option maxHeartbeats 1000000 in
/-- C6: on every non-handoff turn in which the knowledge retrieval pass
over the sentinel-filtered corpus returns zero qualifying records — for
any corpus, empty or one whose candidates all fail the gates — `chat`
does not fail: enrichment adds nothing, and the completion provider is
still invoked with a system prompt containing the explicit no-knowledge
marker in place of the knowledge block. -/
theorem chat_no_qualifying_knowledge_uses_marker_and_completes :
    ∀ (env : ChatEnv) (ctx : ConversationContext) (msg : String),
      shouldOfferHumanHandoff msg ctx.config = false →
      retrieveCapsules env.vectorSim
          (env.knowledgeAll.filter fun k => k.id != "__chatbot_config__")
          { message := msg, messageEmbedding := env.embedFn msg
            currentPhase := some (detectPhase msg ctx.currentPhase)
            detectedEmotion := some (detectEmotion msg) }
          ctx.config.retrievalWeights ctx.config.maxCapsulesPerQuery = [] →
      ∃ prompt,
        (chat env ctx msg).2
          = [TurnEffect.classifyCall, TurnEffect.embedCall msg,
             TurnEffect.knowledgeRetrievalCall, TurnEffect.completionCall prompt]
        ∧ includesStr prompt
            "No specific knowledge has been retrieved for this message" = true := by
  intro env ctx msg hh hscored
  refine ⟨buildSystemPrompt ctx.chatbot
    { ctx with
      currentPhase := detectPhase msg ctx.currentPhase
      detectedEmotion := detectEmotion msg
      messageHistory := ctx.messageHistory ++ [{ role := .user, content := msg }] } "",
    ?_, ?_⟩
  · simp only [chat, hh, Bool.false_eq_true, if_false, hscored,
      enrichWithRelated_nil_selected, ite_self, knowledgeBlock_nil]
  · simp only [buildSystemPrompt]
    apply includesStr_jsTrim _ _ (by decide) (by decide) (by decide)
    refine includesStr_append_left _ _ _ (includesStr_append_left _ _ _
      (includesStr_append_left _ _ _ (includesStr_append_left _ _ _
      (includesStr_append_left _ _ _ (includesStr_append_left _ _ _
      (includesStr_append_left _ _ _ (includesStr_append_left _ _ _
      (includesStr_append_left _ _ _ (includesStr_append_left _ _ _
      (includesStr_append_right _ _ _ ?_))))))))))
    decide

/-- Witness for C6 at a concrete nonempty corpus whose only record fails
the Stage-1 gatekeeper, so the turn retrieves zero qualifying records. -/
theorem chat_no_qualifying_knowledge_uses_marker_and_completes_witness :
    shouldOfferHumanHandoff "hello" testContext.config = false
    ∧ noMatchEnv.knowledgeAll = [c4StageOneFailCapsule]
    ∧ retrieveCapsules noMatchEnv.vectorSim
        (noMatchEnv.knowledgeAll.filter fun k => k.id != "__chatbot_config__")
        { message := "hello", messageEmbedding := noMatchEnv.embedFn "hello"
          currentPhase := some (detectPhase "hello" testContext.currentPhase)
          detectedEmotion := some (detectEmotion "hello") }
        testContext.config.retrievalWeights testContext.config.maxCapsulesPerQuery = []
    ∧ ∃ prompt,
        (chat noMatchEnv testContext "hello").2
          = [TurnEffect.classifyCall, TurnEffect.embedCall "hello",
             TurnEffect.knowledgeRetrievalCall, TurnEffect.completionCall prompt]
        ∧ includesStr prompt
            "No specific knowledge has been retrieved for this message" = true :=
  ⟨by decide, rfl, by decide,
   chat_no_qualifying_knowledge_uses_marker_and_completes noMatchEnv testContext "hello"
     (by decide) (by decide)⟩
